import Mathlib

/-!
Verification of the RDT protocol engine (files RDT.py and rdt_3_0.py):
a shallow embedding of the frame codec (`Packet`), the receive buffer and
the ARQ state machines, together with theorems settling the specification
claims about them.

Python strings are modelled as `List Char`; Python `int` values as `Int`;
raising statements (`int()` on non-numeric text, the `RuntimeError` in
`Packet.from_byte_S`) return in an `Except PyErr` monad.  Blocking
`while True:` loops are modelled by a step function iterated by a
fuel-indexed runner (`none` = the fuel ran out before the loop returned).
-/

/-- A Python `str` value, as its list of characters. -/
abbrev PyStr := List Char

/-- Character list of a Lean string literal (used to write Python string
literals such as `'ACK'`). -/
def strL (s : String) : PyStr := s.data

/-- The exceptions the modelled code can raise: `ValueError` from `int()`
on a non-numeric string, `RuntimeError` from `Packet.from_byte_S` on a
corrupt frame. -/
inductive PyErr
  | valueError
  | runtimeError
deriving DecidableEq

/-! ### Decimal strings and Python `int()` / `str()` / `zfill` -/

/-- Is `c` a decimal digit? -/
def isDigitC (c : Char) : Bool := decide ('0' ≤ c) && decide (c ≤ '9')

/-- Numeric value of a digit character. -/
def digitVal (c : Char) : Nat := c.toNat - 48

/-- Value of a string of decimal digits (most significant first), the value
Python's `int()` returns on such a string. -/
def decValue (l : List Char) : Nat := Nat.ofDigits 10 ((l.map digitVal).reverse)

/-- Decimal digit characters of `n > 0`, most significant first; the fuel
argument (any bound `≥ n` works) makes the recursion structural. -/
def natStrAux : Nat → Nat → List Char
  | 0, _ => []
  | fuel + 1, n => if n = 0 then [] else natStrAux fuel (n / 10) ++ [Nat.digitChar (n % 10)]

/-- Python `str()` of a nonnegative integer. -/
def natStr (n : Nat) : List Char := if n = 0 then ['0'] else natStrAux n n

/-- Python `str()` of an integer. -/
def intStr (n : Int) : List Char := if n < 0 then '-' :: natStr (-n).toNat else natStr n.toNat

/-- Python `str.zfill(w)`: left-pad with `'0'` to width `w`, keeping a
leading sign in place. -/
def zfill (w : Nat) (s : List Char) : List Char :=
  match s with
  | [] => List.replicate w '0'
  | c :: r =>
    if c = '-' ∨ c = '+' then c :: (List.replicate (w - s.length) '0' ++ r)
    else List.replicate (w - s.length) '0' ++ s

/-- Strip leading and trailing spaces (the whitespace stripping Python's
`int()` performs; the strings arising here contain no other whitespace). -/
def stripSpaces (l : List Char) : List Char :=
  ((l.dropWhile (· = ' ')).reverse.dropWhile (· = ' ')).reverse

/-- Python `int()` on a whitespace-stripped string: an optional sign
followed by at least one decimal digit, anything else raising
`ValueError`. -/
def pyIntCore (l : List Char) : Except PyErr Int :=
  match l with
  | [] => .error .valueError
  | c :: r =>
    if c = '-' then
      if r ≠ [] ∧ r.all isDigitC then .ok (-(decValue r : Int)) else .error .valueError
    else if c = '+' then
      if r ≠ [] ∧ r.all isDigitC then .ok (decValue r : Int) else .error .valueError
    else if (c :: r).all isDigitC then .ok (decValue (c :: r) : Int)
    else .error .valueError

/-- Python `int()` on a string. -/
def pyInt (l : List Char) : Except PyErr Int := pyIntCore (stripSpaces l)

/-! ### Python slicing -/

/-- Clamp a Python slice index to `[0, len]`, resolving negative indices
from the end of the string. -/
def pyIdx (len : Nat) (i : Int) : Nat :=
  if i < 0 then ((len : Int) + i).toNat else min i.toNat len

/-- Python `s[a:b]`. -/
def pySlice (s : List Char) (a b : Int) : List Char :=
  (s.take (pyIdx s.length b)).drop (pyIdx s.length a)

/-- Python `s[:b]`. -/
def pySliceTo (s : List Char) (b : Int) : List Char := s.take (pyIdx s.length b)

/-- Python `s[a:]`. -/
def pySliceFrom (s : List Char) (a : Int) : List Char := s.drop (pyIdx s.length a)

/-! ### MD5 (`hashlib.md5(...).hexdigest()`)

A byte-level implementation of MD5 over `List Nat` (byte values), producing
the 32-character lowercase hex digest, exactly as `hashlib.md5` does on the
UTF-8 encoding of a Python string. -/

/-- Lowercase hex digit for a nibble. -/
def hexDigitChar (n : Nat) : Char := if n < 10 then Char.ofNat (48 + n) else Char.ofNat (87 + n)

/-- Two lowercase hex characters per byte, in order. -/
def bytesToHex : List Nat → List Char
  | [] => []
  | b :: r => hexDigitChar (b / 16) :: hexDigitChar (b % 16) :: bytesToHex r

/-- The four bytes of a 32-bit word, little-endian. -/
def wordLEBytes (w : Nat) : List Nat := [w % 256, (w >>> 8) % 256, (w >>> 16) % 256, (w >>> 24) % 256]

/-- The eight bytes of the 64-bit little-endian bit-length trailer. -/
def md5LenBytes (len : Nat) : List Nat := (List.range 8).map (fun i => ((8 * len) >>> (8 * i)) % 256)

/-- MD5 padding: append `0x80`, zero bytes to 56 mod 64, then the bit length. -/
def md5Pad (msg : List Nat) : List Nat :=
  msg ++ [0x80] ++ List.replicate ((119 - msg.length % 64) % 64) 0 ++ md5LenBytes msg.length

/-- Group bytes into 32-bit little-endian words. -/
def toWords : List Nat → List Nat
  | b0 :: b1 :: b2 :: b3 :: rest => (b0 + 256 * b1 + 65536 * b2 + 16777216 * b3) :: toWords rest
  | _ => []

/-- The 64 MD5 round constants. -/
def md5K : List Nat :=
  [0xd76aa478, 0xe8c7b756, 0x242070db, 0xc1bdceee, 0xf57c0faf, 0x4787c62a, 0xa8304613, 0xfd469501,
   0x698098d8, 0x8b44f7af, 0xffff5bb1, 0x895cd7be, 0x6b901122, 0xfd987193, 0xa679438e, 0x49b40821,
   0xf61e2562, 0xc040b340, 0x265e5a51, 0xe9b6c7aa, 0xd62f105d, 0x02441453, 0xd8a1e681, 0xe7d3fbc8,
   0x21e1cde6, 0xc33707d6, 0xf4d50d87, 0x455a14ed, 0xa9e3e905, 0xfcefa3f8, 0x676f02d9, 0x8d2a4c8a,
   0xfffa3942, 0x8771f681, 0x6d9d6122, 0xfde5380c, 0xa4beea44, 0x4bdecfa9, 0xf6bb4b60, 0xbebfbc70,
   0x289b7ec6, 0xeaa127fa, 0xd4ef3085, 0x04881d05, 0xd9d4d039, 0xe6db99e5, 0x1fa27cf8, 0xc4ac5665,
   0xf4292244, 0x432aff97, 0xab9423a7, 0xfc93a039, 0x655b59c3, 0x8f0ccc92, 0xffeff47d, 0x85845dd1,
   0x6fa87e4f, 0xfe2ce6e0, 0xa3014314, 0x4e0811a1, 0xf7537e82, 0xbd3af235, 0x2ad7d2bb, 0xeb86d391]

/-- The 64 MD5 per-round rotation amounts. -/
def md5S : List Nat :=
  [7, 12, 17, 22, 7, 12, 17, 22, 7, 12, 17, 22, 7, 12, 17, 22,
   5, 9, 14, 20, 5, 9, 14, 20, 5, 9, 14, 20, 5, 9, 14, 20,
   4, 11, 16, 23, 4, 11, 16, 23, 4, 11, 16, 23, 4, 11, 16, 23,
   6, 10, 15, 21, 6, 10, 15, 21, 6, 10, 15, 21, 6, 10, 15, 21]

/-- 32-bit left rotation. -/
def rotl32 (x s : Nat) : Nat := ((x <<< s) ||| (x >>> (32 - s))) % 4294967296

/-- Running MD5 state. -/
structure MD5St where
  a : Nat
  b : Nat
  c : Nat
  d : Nat
deriving DecidableEq

/-- The nonlinear function of round `i`. -/
def md5F (i b c d : Nat) : Nat :=
  if i < 16 then (b &&& c) ||| ((b ^^^ 0xffffffff) &&& d)
  else if i < 32 then (d &&& b) ||| ((d ^^^ 0xffffffff) &&& c)
  else if i < 48 then b ^^^ c ^^^ d
  else c ^^^ (b ||| (d ^^^ 0xffffffff))

/-- The message-word index of round `i`. -/
def md5G (i : Nat) : Nat :=
  if i < 16 then i
  else if i < 32 then (5 * i + 1) % 16
  else if i < 48 then (3 * i + 5) % 16
  else (7 * i) % 16

/-- One MD5 round over the 16 message words `m`. -/
def md5Round (m : List Nat) (st : MD5St) (i : Nat) : MD5St :=
  let f := (md5F i st.b st.c st.d + st.a + md5K.getD i 0 + m.getD (md5G i) 0) % 4294967296
  ⟨st.d, (st.b + rotl32 f (md5S.getD i 0)) % 4294967296, st.b, st.c⟩

/-- Process one 16-word block. -/
def md5Block (st : MD5St) (m : List Nat) : MD5St :=
  let r := (List.range 64).foldl (md5Round m) st
  ⟨(st.a + r.a) % 4294967296, (st.b + r.b) % 4294967296,
   (st.c + r.c) % 4294967296, (st.d + r.d) % 4294967296⟩

/-- Process successive 16-word blocks (the fuel is any bound on the number
of blocks, making the recursion structural). -/
def md5Blocks : Nat → MD5St → List Nat → MD5St
  | 0, st, _ => st
  | fuel + 1, st, ws => if ws.isEmpty then st else md5Blocks fuel (md5Block st (ws.take 16)) (ws.drop 16)

/-- MD5 hex digest of a byte list. -/
def md5hexBytes (msg : List Nat) : List Char :=
  let ws := toWords (md5Pad msg)
  let st := md5Blocks ws.length ⟨0x67452301, 0xefcdab89, 0x98badcfe, 0x10325476⟩ ws
  bytesToHex (wordLEBytes st.a ++ wordLEBytes st.b ++ wordLEBytes st.c ++ wordLEBytes st.d)

/-- UTF-8 bytes of one character (Python `str.encode('utf-8')`, per codepoint). -/
def utf8Char (c : Char) : List Nat :=
  let n := c.toNat
  if n < 0x80 then [n]
  else if n < 0x800 then [0xc0 + n / 64, 0x80 + n % 64]
  else if n < 0x10000 then [0xe0 + n / 4096, 0x80 + (n / 64) % 64, 0x80 + n % 64]
  else [0xf0 + n / 262144, 0x80 + (n / 4096) % 64, 0x80 + (n / 64) % 64, 0x80 + n % 64]

/-- UTF-8 encoding of a string. -/
def utf8Bytes (s : PyStr) : List Nat := (s.map utf8Char).flatten

/-- `hashlib.md5(s.encode('utf-8')).hexdigest()` as a character list. -/
def md5hexS (s : PyStr) : PyStr := md5hexBytes (utf8Bytes s)

/-! ### The frame codec: class `Packet`

The `Packet` class is byte-for-byte identical in RDT.py and rdt_3_0.py, so
one embedding serves both files. -/

/-- A `Packet` object: sequence number and payload string. -/
structure Packet where
  seq_num : Int
  msg_S : PyStr
deriving DecidableEq

namespace Packet

/-- Class attribute `seq_num_S_length = 10`. -/
abbrev seq_num_S_length : Nat := 10

/-- Class attribute `length_S_length = 10`. -/
abbrev length_S_length : Nat := 10

/-- Class attribute `checksum_length = 32`. -/
abbrev checksum_length : Nat := 32

/-- `Packet.get_byte_S`: fixed-width length field, fixed-width sequence
field, MD5 checksum over length‖sequence‖payload, then the payload. -/
def get_byte_S (p : Packet) : PyStr :=
  let seq_num_S := zfill seq_num_S_length (intStr p.seq_num)
  let length_S := zfill length_S_length
    (natStr (length_S_length + seq_num_S.length + checksum_length + p.msg_S.length))
  let checksum_S := md5hexS (length_S ++ seq_num_S ++ p.msg_S)
  length_S ++ seq_num_S ++ checksum_S ++ p.msg_S

/-- `Packet.corrupt`: re-slice the claimed fields (with the index
expressions exactly as written in the source) and compare the embedded
checksum with the recomputed one. -/
def corrupt (byte_S : PyStr) : Bool :=
  let length_S := pySlice byte_S 0 (length_S_length : Nat)
  let seq_num_S := pySlice byte_S (length_S_length : Nat) ((seq_num_S_length + seq_num_S_length : Nat))
  let checksum_S := pySlice byte_S ((seq_num_S_length + seq_num_S_length : Nat))
    ((seq_num_S_length + length_S_length + checksum_length : Nat))
  let msg_S := pySliceFrom byte_S ((seq_num_S_length + seq_num_S_length + checksum_length : Nat))
  let computed_checksum_S := md5hexS (length_S ++ seq_num_S ++ msg_S)
  checksum_S ≠ computed_checksum_S

/-- `Packet.from_byte_S`: raise `RuntimeError` when corrupt, otherwise
parse the sequence-number field with `int()` and take the payload tail. -/
def from_byte_S (byte_S : PyStr) : Except PyErr Packet :=
  if corrupt byte_S then .error .runtimeError
  else
    match pyInt (pySlice byte_S (length_S_length : Nat) ((length_S_length + seq_num_S_length : Nat))) with
    | .error e => .error e
    | .ok seq_num =>
      .ok ⟨seq_num, pySliceFrom byte_S ((length_S_length + seq_num_S_length + checksum_length : Nat))⟩

end Packet

/-! ### The engine state

One engine instance's mutable state plus its environment: the stream of
strings future `udt_receive` calls will return, the strings passed to
`udt_send` so far (in order), and the values future `time.time()` calls
will return. -/

/-- State of one `RDT` instance together with its channel and clock. -/
structure RDTState where
  seq_num : Int
  byte_buffer : PyStr
  incoming : List PyStr
  sent : List PyStr
  clock : List Int
deriving DecidableEq

/-- `self.network.udt_receive()`: next available channel string (empty when
nothing is pending). -/
def udt_receive (st : RDTState) : PyStr × RDTState :=
  match st.incoming with
  | [] => ([], st)
  | b :: r => (b, { st with incoming := r })

/-- `self.network.udt_send(b)`. -/
def udt_send (st : RDTState) (b : PyStr) : RDTState := { st with sent := st.sent ++ [b] }

/-- `time.time()`: next clock reading. -/
def pyTime (st : RDTState) : Int × RDTState :=
  match st.clock with
  | [] => (0, st)
  | t :: r => (t, { st with clock := r })

/-- Outcome of one iteration of a blocking send loop: go around again,
return a value, or raise. -/
inductive SendStep
  | next (st : RDTState)
  | ret (v : Option PyStr) (st : RDTState)
  | err (e : PyErr) (st : RDTState)
deriving DecidableEq

/-! ### RDT.py: class `RDT` (levels 1 and 2) -/

namespace RDTpy

/-- The `while True:` loop of `RDT.rdt_1_0_receive` (RDT.py). `none` means
the fuel ran out before the loop returned. -/
def rdt_1_0_loop : Nat → Option PyStr → RDTState → Option (Except PyErr (Option PyStr × RDTState))
  | 0, _, _ => none
  | fuel + 1, retS, st =>
    if st.byte_buffer.length < Packet.length_S_length then some (.ok (retS, st))
    else
      match pyInt (pySliceTo st.byte_buffer (Packet.length_S_length : Nat)) with
      | .error e => some (.error e)
      | .ok length =>
        if (st.byte_buffer.length : Int) < length then some (.ok (retS, st))
        else
          match Packet.from_byte_S (pySlice st.byte_buffer 0 length) with
          | .error e => some (.error e)
          | .ok p =>
            rdt_1_0_loop fuel (some (retS.getD [] ++ p.msg_S))
              { st with byte_buffer := pySliceFrom st.byte_buffer length }

/-- `RDT.rdt_1_0_receive` (RDT.py): read the channel once, then extract and
decode every complete frame, concatenating payloads. -/
def rdt_1_0_receive (fuel : Nat) (st : RDTState) : Option (Except PyErr (Option PyStr × RDTState)) :=
  let (byte_S, st1) := udt_receive st
  rdt_1_0_loop fuel none { st1 with byte_buffer := st1.byte_buffer ++ byte_S }

/-- The `while True:` loop of `RDT.rdt_2_1_receive` (RDT.py).  In the
matching-sequence branch the source constructs `ac = Packet(self.seq_num,
'ACK')` but then transmits `p.get_byte_S()`; the embedding reproduces
that. -/
def rdt_2_1_loop : Nat → Option PyStr → RDTState → Option (Except PyErr (Option PyStr × RDTState))
  | 0, _, _ => none
  | fuel + 1, retS, st =>
    if st.byte_buffer.length < Packet.length_S_length then some (.ok (retS, st))
    else
      match pyInt (pySliceTo st.byte_buffer (Packet.length_S_length : Nat)) with
      | .error e => some (.error e)
      | .ok length =>
        if (st.byte_buffer.length : Int) < length then some (.ok (retS, st))
        else
          let info := pySlice st.byte_buffer 0 length
          if ¬ Packet.corrupt info then
            match Packet.from_byte_S info with
            | .error e => some (.error e)
            | .ok p =>
              if p.seq_num = st.seq_num then
                let _ac : Packet := ⟨st.seq_num, strL "ACK"⟩
                let st1 := { st with seq_num := st.seq_num + 1 }
                let st2 := udt_send st1 p.get_byte_S
                rdt_2_1_loop fuel (some p.msg_S)
                  { st2 with byte_buffer := pySliceFrom st2.byte_buffer length }
              else
                let ac : Packet := ⟨p.seq_num, strL "ACK"⟩
                some (.ok (retS, udt_send st ac.get_byte_S))
          else
            let st1 := { st with byte_buffer := pySliceFrom st.byte_buffer length }
            let ac : Packet := ⟨st1.seq_num, strL "NAK"⟩
            rdt_2_1_loop fuel retS (udt_send st1 ac.get_byte_S)

/-- `RDT.rdt_2_1_receive` (RDT.py). -/
def rdt_2_1_receive (fuel : Nat) (st : RDTState) : Option (Except PyErr (Option PyStr × RDTState)) :=
  let (byte_S, st1) := udt_receive st
  rdt_2_1_loop fuel none { st1 with byte_buffer := st1.byte_buffer ++ byte_S }

end RDTpy

/-! ### rdt_3_0.py: class `RDT` (levels 2 and 3) -/

namespace Rdt30

/-- One iteration of the `while True:` loop of `RDT.rdt_2_1_send`
(rdt_3_0.py): read the channel, then on a complete frame branch on
NAK / ACK / other / corrupt.  No sequence-number check is made on the
control frame. -/
def rdt_2_1_send_step (p : Packet) (st : RDTState) : SendStep :=
  let (byte_S, st0) := udt_receive st
  let st1 := { st0 with byte_buffer := st0.byte_buffer ++ byte_S }
  if st1.byte_buffer.length < Packet.length_S_length then .next st1
  else
    match pyInt (pySliceTo st1.byte_buffer (Packet.length_S_length : Nat)) with
    | .error e => .err e st1
    | .ok length =>
      if (st1.byte_buffer.length : Int) < length then .next st1
      else
        let info := pySlice st1.byte_buffer 0 length
        if ¬ Packet.corrupt info then
          match Packet.from_byte_S info with
          | .error e => .err e st1
          | .ok ac =>
            if ac.msg_S = strL "NAK" then
              let st2 := { st1 with byte_buffer := pySliceFrom st1.byte_buffer length }
              .next (udt_send st2 p.get_byte_S)
            else if ac.msg_S = strL "ACK" then
              let st2 := { st1 with byte_buffer := pySliceFrom st1.byte_buffer length }
              .ret none { st2 with seq_num := st2.seq_num + 1 }
            else
              .ret none { st1 with byte_buffer := pySliceFrom st1.byte_buffer length }
        else
          let st2 := { st1 with byte_buffer := pySliceFrom st1.byte_buffer length }
          .next (udt_send st2 p.get_byte_S)

/-- The `while True:` loop of `RDT.rdt_2_1_send` (rdt_3_0.py). -/
def rdt_2_1_send_loop : Nat → Packet → RDTState → Option (Except PyErr (Option PyStr × RDTState))
  | 0, _, _ => none
  | fuel + 1, p, st =>
    match rdt_2_1_send_step p st with
    | .next st1 => rdt_2_1_send_loop fuel p st1
    | .ret v st1 => some (.ok (v, st1))
    | .err e _ => some (.error e)

/-- `RDT.rdt_2_1_send` (rdt_3_0.py): transmit the data frame, then (the
guard `msg_S != 'ACK' or msg_S != 'NAK'` is always true) block in the
acknowledgment loop. -/
def rdt_2_1_send (fuel : Nat) (st : RDTState) (msg_S : PyStr) : Option (Except PyErr (Option PyStr × RDTState)) :=
  let p : Packet := ⟨st.seq_num, msg_S⟩
  let st1 := udt_send st p.get_byte_S
  if msg_S ≠ strL "ACK" ∨ msg_S ≠ strL "NAK" then rdt_2_1_send_loop fuel p st1
  else some (.ok (none, st1))

/-- `RDT.rdt_2_1_receive` (rdt_3_0.py): unlike the RDT.py version, the
frame's bytes are removed from the buffer before the corruption check, a
non-corrupt frame with payload `'ACK'`/`'NAK'` is ignored, and every branch
returns, so the loop body runs at most once. -/
def rdt_2_1_receive (st : RDTState) : Except PyErr (Option PyStr × RDTState) :=
  let (byte_S, st0) := udt_receive st
  let st1 := { st0 with byte_buffer := st0.byte_buffer ++ byte_S }
  if st1.byte_buffer.length < Packet.length_S_length then .ok (none, st1)
  else
    match pyInt (pySliceTo st1.byte_buffer (Packet.length_S_length : Nat)) with
    | .error e => .error e
    | .ok length =>
      if (st1.byte_buffer.length : Int) < length then .ok (none, st1)
      else
        let info := pySlice st1.byte_buffer 0 length
        let st2 := { st1 with byte_buffer := pySliceFrom st1.byte_buffer length }
        if ¬ Packet.corrupt info then
          match Packet.from_byte_S info with
          | .error e => .error e
          | .ok p =>
            if p.msg_S = strL "ACK" ∨ p.msg_S = strL "NAK" then .ok (none, st2)
            else if p.seq_num = st2.seq_num then
              let ac : Packet := ⟨st2.seq_num, strL "ACK"⟩
              let st3 := { st2 with seq_num := st2.seq_num + 1 }
              .ok (some p.msg_S, udt_send st3 ac.get_byte_S)
            else
              let ac : Packet := ⟨p.seq_num, strL "ACK"⟩
              .ok (none, udt_send st2 ac.get_byte_S)
        else
          let nak : Packet := ⟨st2.seq_num, strL "NAK"⟩
          .ok (none, udt_send st2 nak.get_byte_S)

/-- One iteration of the `while True:` loop of `RDT.rdt_3_0_send`
(rdt_3_0.py): if the timeout has expired, clear the whole buffer, resend
the data frame and reset the timer; otherwise behave like the level-2 send
loop except that control frames whose sequence number differs from the
current one are skipped.  Returns the (possibly reset) transmission time
together with the step outcome.  The iteration is split into the timeout
check (`rdt_3_0_send_step`) and the channel-read/dispatch part below it in
the source (`rdt_3_0_send_body`). -/
def rdt_3_0_send_body (p : Packet) (stt : RDTState) : SendStep :=
  let (byte_S, st0) := udt_receive stt
  let st1 := { st0 with byte_buffer := st0.byte_buffer ++ byte_S }
  if st1.byte_buffer.length < Packet.length_S_length then .next st1
  else
    match pyInt (pySliceTo st1.byte_buffer (Packet.length_S_length : Nat)) with
    | .error e => .err e st1
    | .ok length =>
      if (st1.byte_buffer.length : Int) < length then .next st1
      else
        let info := pySlice st1.byte_buffer 0 length
        if ¬ Packet.corrupt info then
          match Packet.from_byte_S info with
          | .error e => .err e st1
          | .ok ac =>
            if ac.msg_S = strL "NAK" then
              let st2 := { st1 with byte_buffer := pySliceFrom st1.byte_buffer length }
              if ac.seq_num ≠ st2.seq_num then .next st2
              else .next (udt_send st2 p.get_byte_S)
            else if ac.msg_S = strL "ACK" then
              let st2 := { st1 with byte_buffer := pySliceFrom st1.byte_buffer length }
              if ac.seq_num ≠ st2.seq_num then .next st2
              else .ret none { st2 with seq_num := st2.seq_num + 1 }
            else
              .ret none { st1 with byte_buffer := pySliceFrom st1.byte_buffer length }
        else
          let st2 := { st1 with byte_buffer := pySliceFrom st1.byte_buffer length }
          .next (udt_send st2 p.get_byte_S)

/-- The timeout check at the top of the `rdt_3_0_send` loop iteration; on
expiry the whole buffer is cleared, the data frame is retransmitted and the
timer reset, otherwise the iteration proceeds with `rdt_3_0_send_body`. -/
def rdt_3_0_send_step (p : Packet) (tlast : Int) (st : RDTState) : Int × SendStep :=
  let (now, stt) := pyTime st
  if tlast + 1 < now then
    let (now2, st0) := pyTime stt
    let st1 := { st0 with byte_buffer := [] }
    (now2, .next (udt_send st1 p.get_byte_S))
  else
    (tlast, rdt_3_0_send_body p stt)

/-- The `while True:` loop of `RDT.rdt_3_0_send` (rdt_3_0.py). -/
def rdt_3_0_send_loop : Nat → Packet → Int → RDTState → Option (Except PyErr (Option PyStr × RDTState))
  | 0, _, _, _ => none
  | fuel + 1, p, tlast, st =>
    match rdt_3_0_send_step p tlast st with
    | (tlast1, .next st1) => rdt_3_0_send_loop fuel p tlast1 st1
    | (_, .ret v st1) => some (.ok (v, st1))
    | (_, .err e _) => some (.error e)

/-- `RDT.rdt_3_0_send` (rdt_3_0.py): note the initial `time.time()` and the
always-true control-payload guard, as in the source. -/
def rdt_3_0_send (fuel : Nat) (st : RDTState) (msg_S : PyStr) : Option (Except PyErr (Option PyStr × RDTState)) :=
  let (t0, st0) := pyTime st
  let p : Packet := ⟨st0.seq_num, msg_S⟩
  let st1 := udt_send st0 p.get_byte_S
  if msg_S ≠ strL "ACK" ∨ msg_S ≠ strL "NAK" then rdt_3_0_send_loop fuel p t0 st1
  else some (.ok (none, st1))

/-- `RDT.rdt_3_0_receive` (rdt_3_0.py): identical logic to this file's
`rdt_2_1_receive`. -/
def rdt_3_0_receive (st : RDTState) : Except PyErr (Option PyStr × RDTState) :=
  let (byte_S, st0) := udt_receive st
  let st1 := { st0 with byte_buffer := st0.byte_buffer ++ byte_S }
  if st1.byte_buffer.length < Packet.length_S_length then .ok (none, st1)
  else
    match pyInt (pySliceTo st1.byte_buffer (Packet.length_S_length : Nat)) with
    | .error e => .error e
    | .ok length =>
      if (st1.byte_buffer.length : Int) < length then .ok (none, st1)
      else
        let info := pySlice st1.byte_buffer 0 length
        let st2 := { st1 with byte_buffer := pySliceFrom st1.byte_buffer length }
        if ¬ Packet.corrupt info then
          match Packet.from_byte_S info with
          | .error e => .error e
          | .ok p =>
            if p.msg_S = strL "ACK" ∨ p.msg_S = strL "NAK" then .ok (none, st2)
            else if p.seq_num = st2.seq_num then
              let ac : Packet := ⟨st2.seq_num, strL "ACK"⟩
              let st3 := { st2 with seq_num := st2.seq_num + 1 }
              .ok (some p.msg_S, udt_send st3 ac.get_byte_S)
            else
              let ac : Packet := ⟨p.seq_num, strL "ACK"⟩
              .ok (none, udt_send st2 ac.get_byte_S)
        else
          let nak : Packet := ⟨st2.seq_num, strL "NAK"⟩
          .ok (none, udt_send st2 nak.get_byte_S)

end Rdt30

/-! ### Proof-side abbreviations for the fields of a well-formed frame -/

/-- The sequence-number field of a frame for sequence number `s`. -/
def seqF (s : Nat) : PyStr := zfill 10 (natStr s)

/-- The length field of a frame with payload `m`. -/
def lenF (m : PyStr) : PyStr := zfill 10 (natStr (52 + m.length))

/-- The checksum field of a frame for sequence number `s` and payload `m`. -/
def chkF (s : Nat) (m : PyStr) : PyStr := md5hexS (lenF m ++ seqF s ++ m)

/-! ### Lemmas: decimal strings -/

theorem digitVal_digitChar : ∀ d : Nat, d < 10 → digitVal (Nat.digitChar d) = d := by decide

theorem isDigitC_digitChar : ∀ d : Nat, d < 10 → isDigitC (Nat.digitChar d) = true := by decide

theorem natStrAux_eq : ∀ fuel n, n ≤ fuel →
    natStrAux fuel n = ((Nat.digits 10 n).reverse).map Nat.digitChar := by
  intro fuel
  induction fuel with
  | zero =>
    intro n hn
    interval_cases n
    simp [natStrAux]
  | succ fuel ih =>
    intro n hn
    rcases Nat.eq_zero_or_pos n with h0 | h0
    · subst h0; simp [natStrAux]
    · rw [natStrAux, if_neg h0.ne']
      rw [ih (n / 10) (by omega)]
      rw [Nat.digits_def' (b := 10) (by norm_num) h0]
      simp

theorem natStr_eq (n : Nat) :
    natStr n = if n = 0 then ['0'] else ((Nat.digits 10 n).reverse).map Nat.digitChar := by
  unfold natStr
  split
  · rfl
  · exact natStrAux_eq n n le_rfl

theorem natStr_all_digits (n : Nat) : ∀ c ∈ natStr n, isDigitC c = true := by
  intro c hc
  rw [natStr_eq] at hc
  split at hc
  · simp at hc
    subst hc
    decide
  · simp only [List.mem_map, List.mem_reverse] at hc
    obtain ⟨d, hd, rfl⟩ := hc
    exact isDigitC_digitChar d (Nat.digits_lt_base (by norm_num) hd)

theorem natStr_ne_nil (n : Nat) : natStr n ≠ [] := by
  rw [natStr_eq]
  split
  · simp
  · simp only [ne_eq, List.map_eq_nil_iff, List.reverse_eq_nil_iff]
    exact Nat.digits_ne_nil_iff_ne_zero.mpr (by assumption)

theorem natStr_length_le {n : Nat} (h : n < 10 ^ 10) : (natStr n).length ≤ 10 := by
  rcases Nat.eq_zero_or_pos n with h0 | h0
  · subst h0; simp [natStr]
  · rw [natStr_eq, if_neg h0.ne']
    rw [List.length_map, List.length_reverse]
    by_contra hlen
    push_neg at hlen
    have h1 := Nat.base_pow_length_digits_le 10 n (by norm_num) h0.ne'
    have h2 : (10 : Nat) ^ 11 ≤ 10 ^ (Nat.digits 10 n).length :=
      Nat.pow_le_pow_right (by norm_num) hlen
    have h3 : (10 : Nat) ^ 11 = 100000000000 := by norm_num
    have h4 : (10 : Nat) ^ 10 = 10000000000 := by norm_num
    omega

theorem ofDigits_replicate_zero (k : Nat) : Nat.ofDigits 10 (List.replicate k 0) = 0 := by
  induction k with
  | zero => rfl
  | succ k ih => simp [List.replicate_succ, Nat.ofDigits_cons, ih]

theorem decValue_natStr (n : Nat) : decValue (natStr n) = n := by
  rcases Nat.eq_zero_or_pos n with h0 | h0
  · subst h0; rfl
  · rw [natStr_eq, if_neg h0.ne']
    unfold decValue
    rw [List.map_map]
    have hmap : (Nat.digits 10 n).map (digitVal ∘ Nat.digitChar) = Nat.digits 10 n := by
      conv_rhs => rw [← List.map_id (Nat.digits 10 n)]
      apply List.map_congr_left
      intro d hd
      simp only [Function.comp_apply, id_eq]
      exact digitVal_digitChar d (Nat.digits_lt_base (by norm_num) hd)
    rw [← List.map_reverse, List.reverse_reverse, hmap, Nat.ofDigits_digits]

theorem decValue_replicate_zero_append (k : Nat) (l : List Char) :
    decValue (List.replicate k '0' ++ l) = decValue l := by
  unfold decValue
  rw [List.map_append, List.reverse_append, Nat.ofDigits_append]
  have : (List.replicate k '0').map digitVal = List.replicate k 0 := by
    rw [List.map_replicate]
    rfl
  rw [this, List.reverse_replicate, ofDigits_replicate_zero]
  simp

/-! ### Lemmas: `zfill` and `pyInt` -/

theorem isDigitC_ne_dash {c : Char} (h : isDigitC c = true) : c ≠ '-' := by
  rintro rfl
  exact absurd h (by decide)

theorem isDigitC_ne_plus {c : Char} (h : isDigitC c = true) : c ≠ '+' := by
  rintro rfl
  exact absurd h (by decide)

theorem isDigitC_ne_space {c : Char} (h : isDigitC c = true) : c ≠ ' ' := by
  rintro rfl
  exact absurd h (by decide)

theorem zfill_natStr (w n : Nat) :
    zfill w (natStr n) = List.replicate (w - (natStr n).length) '0' ++ natStr n := by
  obtain ⟨c, t, hct⟩ : ∃ c t, natStr n = c :: t := by
    cases h : natStr n with
    | nil => exact absurd h (natStr_ne_nil n)
    | cons c t => exact ⟨c, t, rfl⟩
  have hc : isDigitC c = true := natStr_all_digits n c (by rw [hct]; exact List.mem_cons_self _ _)
  rw [hct]
  simp only [zfill]
  rw [if_neg]
  push_neg
  exact ⟨isDigitC_ne_dash hc, isDigitC_ne_plus hc⟩

theorem zfill_natStr_length {w n : Nat} (h : (natStr n).length ≤ w) :
    (zfill w (natStr n)).length = w := by
  rw [zfill_natStr, List.length_append, List.length_replicate]
  omega

theorem zfill_natStr_all_digits (w n : Nat) : ∀ c ∈ zfill w (natStr n), isDigitC c = true := by
  intro c hc
  rw [zfill_natStr, List.mem_append] at hc
  rcases hc with hc | hc
  · rw [List.eq_of_mem_replicate hc]
    decide
  · exact natStr_all_digits n c hc

theorem dropWhile_space_eq_self {l : List Char} (h : ∀ c ∈ l, c ≠ ' ') :
    l.dropWhile (· = ' ') = l := by
  cases l with
  | nil => rfl
  | cons c t =>
    rw [List.dropWhile_cons, if_neg]
    simp only [decide_eq_true_eq]
    exact h c (List.mem_cons_self _ _)

theorem stripSpaces_eq_self {l : List Char} (h : ∀ c ∈ l, c ≠ ' ') : stripSpaces l = l := by
  unfold stripSpaces
  rw [dropWhile_space_eq_self h, dropWhile_space_eq_self, List.reverse_reverse]
  intro c hc
  exact h c (List.mem_reverse.mp hc)

theorem pyIntCore_digits {l : List Char} (h0 : l ≠ []) (h1 : ∀ c ∈ l, isDigitC c = true) :
    pyIntCore l = .ok (decValue l : Int) := by
  cases l with
  | nil => exact absurd rfl h0
  | cons c t =>
    have hc : isDigitC c = true := h1 c (List.mem_cons_self _ _)
    have hall : (c :: t).all isDigitC = true := List.all_eq_true.mpr h1
    simp only [pyIntCore]
    rw [if_neg (isDigitC_ne_dash hc), if_neg (isDigitC_ne_plus hc), if_pos hall]

theorem pyInt_digits {l : List Char} (h0 : l ≠ []) (h1 : ∀ c ∈ l, isDigitC c = true) :
    pyInt l = .ok (decValue l : Int) := by
  unfold pyInt
  rw [stripSpaces_eq_self (fun c hc => isDigitC_ne_space (h1 c hc))]
  exact pyIntCore_digits h0 h1

theorem pyInt_zfill_natStr {w n : Nat} : pyInt (zfill w (natStr n)) = .ok (n : Int) := by
  have hne : zfill w (natStr n) ≠ [] := by
    rw [zfill_natStr]
    simp [natStr_ne_nil n]
  rw [pyInt_digits hne (zfill_natStr_all_digits w n), zfill_natStr,
    decValue_replicate_zero_append, decValue_natStr]

/-! ### Lemmas: Python slicing at nonnegative indices -/

theorem pyIdx_natCast (len k : Nat) : pyIdx len (k : Int) = min k len := by
  unfold pyIdx
  rw [if_neg (by omega), Int.toNat_natCast]

theorem take_min_length (s : List Char) (k : Nat) : s.take (min k s.length) = s.take k := by
  rcases le_total k s.length with h | h
  · rw [min_eq_left h]
  · rw [min_eq_right h, List.take_length, List.take_of_length_le h]

theorem drop_min_length (s : List Char) (k : Nat) : s.drop (min k s.length) = s.drop k := by
  rcases le_total k s.length with h | h
  · rw [min_eq_left h]
  · rw [min_eq_right h, List.drop_length, List.drop_eq_nil_of_le h]

theorem pySliceTo_natCast (s : List Char) (k : Nat) : pySliceTo s (k : Int) = s.take k := by
  unfold pySliceTo
  rw [pyIdx_natCast, take_min_length]

theorem pySliceFrom_natCast (s : List Char) (k : Nat) : pySliceFrom s (k : Int) = s.drop k := by
  unfold pySliceFrom
  rw [pyIdx_natCast, drop_min_length]

theorem drop_min_length_of_le (s : List Char) (a : Nat) (t : List Char) (ht : t.length ≤ s.length) :
    t.drop (min a s.length) = t.drop a := by
  rcases le_total a s.length with h | h
  · rw [min_eq_left h]
  · rw [min_eq_right h, List.drop_eq_nil_of_le ht, List.drop_eq_nil_of_le (le_trans ht h)]

theorem pySlice_natCast (s : List Char) (a b : Nat) :
    pySlice s (a : Int) (b : Int) = (s.take b).drop a := by
  unfold pySlice
  rw [pyIdx_natCast, pyIdx_natCast, take_min_length,
    drop_min_length_of_le s a (s.take b) (by rw [List.length_take]; exact min_le_right _ _)]

theorem pySlice_zero_natCast (s : List Char) (b : Nat) : pySlice s 0 (b : Int) = s.take b := by
  have h0 : ((0 : Nat) : Int) = (0 : Int) := rfl
  rw [← h0, pySlice_natCast, List.drop_zero]

/-! ### Lemmas: the shape of an encoded frame -/

theorem bytesToHex_length (l : List Nat) : (bytesToHex l).length = 2 * l.length := by
  induction l with
  | nil => rfl
  | cons b r ih =>
    rw [bytesToHex]
    simp only [List.length_cons, ih]
    omega

theorem md5hexS_length (s : PyStr) : (md5hexS s).length = 32 := by
  unfold md5hexS md5hexBytes
  rw [bytesToHex_length]
  simp [wordLEBytes]

theorem intStr_natCast (n : Nat) : intStr ((n : Nat) : Int) = natStr n := by
  unfold intStr
  rw [if_neg (by omega), Int.toNat_natCast]

theorem seqF_length {s : Nat} (hs : s < 10 ^ 10) : (seqF s).length = 10 :=
  zfill_natStr_length (natStr_length_le hs)

theorem lenF_length {m : PyStr} (hm : 52 + m.length < 10 ^ 10) : (lenF m).length = 10 :=
  zfill_natStr_length (natStr_length_le hm)

theorem get_byte_S_eq {s : Nat} {m : PyStr} (hs : s < 10 ^ 10) :
    Packet.get_byte_S ⟨(s : Int), m⟩ = lenF m ++ seqF s ++ chkF s m ++ m := by
  unfold Packet.get_byte_S
  simp only [intStr_natCast, Packet.seq_num_S_length, Packet.length_S_length,
    Packet.checksum_length]
  rw [zfill_natStr_length (natStr_length_le hs)]
  have h52 : 10 + 10 + 32 + m.length = 52 + m.length := by omega
  rw [h52]
  rfl

/-- An encoded frame followed by arbitrary extra buffered bytes, with the
four fields exposed. -/
theorem frame_reassoc (m r A B C : PyStr) :
    (A ++ B ++ C ++ m) ++ r = A ++ (B ++ (C ++ (m ++ r))) := by
  simp [List.append_assoc]

theorem encode_length {s : Nat} {m : PyStr} (hs : s < 10 ^ 10) (hm : 52 + m.length < 10 ^ 10) :
    (Packet.get_byte_S ⟨(s : Int), m⟩).length = 52 + m.length := by
  rw [get_byte_S_eq hs]
  simp only [List.length_append, seqF_length hs, lenF_length hm, chkF, md5hexS_length]

theorem encode_take_10 {s : Nat} {m : PyStr} (hs : s < 10 ^ 10) (hm : 52 + m.length < 10 ^ 10)
    (r : PyStr) : (Packet.get_byte_S ⟨(s : Int), m⟩ ++ r).take 10 = lenF m := by
  rw [get_byte_S_eq hs, frame_reassoc]
  exact List.take_left' (lenF_length hm)

theorem encode_slice_10_20 {s : Nat} {m : PyStr} (hs : s < 10 ^ 10) (hm : 52 + m.length < 10 ^ 10)
    (r : PyStr) : ((Packet.get_byte_S ⟨(s : Int), m⟩ ++ r).take 20).drop 10 = seqF s := by
  have h20 : (lenF m ++ seqF s).length = 20 := by
    rw [List.length_append, lenF_length hm, seqF_length hs]
  rw [get_byte_S_eq hs, frame_reassoc, ← List.append_assoc (lenF m)]
  rw [List.take_left' h20]
  exact List.drop_left' (lenF_length hm)

theorem encode_slice_20_52 {s : Nat} {m : PyStr} (hs : s < 10 ^ 10) (hm : 52 + m.length < 10 ^ 10)
    (r : PyStr) : ((Packet.get_byte_S ⟨(s : Int), m⟩ ++ r).take 52).drop 20 = chkF s m := by
  have h52 : (lenF m ++ seqF s ++ chkF s m).length = 52 := by
    rw [List.length_append, List.length_append, lenF_length hm, seqF_length hs, chkF,
      md5hexS_length]
  have h20 : (lenF m ++ seqF s).length = 20 := by
    rw [List.length_append, lenF_length hm, seqF_length hs]
  have hX : lenF m ++ (seqF s ++ (chkF s m ++ (m ++ r)))
      = lenF m ++ seqF s ++ chkF s m ++ (m ++ r) := by
    simp [List.append_assoc]
  rw [get_byte_S_eq hs, frame_reassoc, hX, List.take_left' h52]
  exact List.drop_left' h20

theorem encode_drop_52 {s : Nat} {m : PyStr} (hs : s < 10 ^ 10) (hm : 52 + m.length < 10 ^ 10)
    (r : PyStr) : (Packet.get_byte_S ⟨(s : Int), m⟩ ++ r).drop 52 = m ++ r := by
  have h52 : (lenF m ++ seqF s ++ chkF s m).length = 52 := by
    rw [List.length_append, List.length_append, lenF_length hm, seqF_length hs, chkF,
      md5hexS_length]
  have hX : lenF m ++ (seqF s ++ (chkF s m ++ (m ++ r)))
      = lenF m ++ seqF s ++ chkF s m ++ (m ++ r) := by
    simp [List.append_assoc]
  rw [get_byte_S_eq hs, frame_reassoc, hX]
  exact List.drop_left' h52

theorem encode_take_len {s : Nat} {m : PyStr} (hs : s < 10 ^ 10) (hm : 52 + m.length < 10 ^ 10)
    (r : PyStr) :
    (Packet.get_byte_S ⟨(s : Int), m⟩ ++ r).take (52 + m.length) = Packet.get_byte_S ⟨(s : Int), m⟩ :=
  List.take_left' (encode_length hs hm)

theorem encode_drop_len {s : Nat} {m : PyStr} (hs : s < 10 ^ 10) (hm : 52 + m.length < 10 ^ 10)
    (r : PyStr) : (Packet.get_byte_S ⟨(s : Int), m⟩ ++ r).drop (52 + m.length) = r :=
  List.drop_left' (encode_length hs hm)

theorem encode_take_10' {s : Nat} {m : PyStr} (hs : s < 10 ^ 10) (hm : 52 + m.length < 10 ^ 10) :
    (Packet.get_byte_S ⟨(s : Int), m⟩).take 10 = lenF m := by
  have h := encode_take_10 hs hm []
  rwa [List.append_nil] at h

theorem encode_slice_10_20' {s : Nat} {m : PyStr} (hs : s < 10 ^ 10)
    (hm : 52 + m.length < 10 ^ 10) :
    ((Packet.get_byte_S ⟨(s : Int), m⟩).take 20).drop 10 = seqF s := by
  have h := encode_slice_10_20 hs hm []
  rwa [List.append_nil] at h

theorem encode_slice_20_52' {s : Nat} {m : PyStr} (hs : s < 10 ^ 10)
    (hm : 52 + m.length < 10 ^ 10) :
    ((Packet.get_byte_S ⟨(s : Int), m⟩).take 52).drop 20 = chkF s m := by
  have h := encode_slice_20_52 hs hm []
  rwa [List.append_nil] at h

theorem encode_drop_52' {s : Nat} {m : PyStr} (hs : s < 10 ^ 10) (hm : 52 + m.length < 10 ^ 10) :
    (Packet.get_byte_S ⟨(s : Int), m⟩).drop 52 = m := by
  have h := encode_drop_52 hs hm []
  rwa [List.append_nil, List.append_nil] at h

/-! ### Lemmas: codec semantics on well-formed frames -/

theorem corrupt_encode {s : Nat} {m : PyStr} (hs : s < 10 ^ 10) (hm : 52 + m.length < 10 ^ 10) :
    Packet.corrupt (Packet.get_byte_S ⟨(s : Int), m⟩) = false := by
  unfold Packet.corrupt
  simp only [Packet.length_S_length, Packet.seq_num_S_length, Packet.checksum_length,
    pySlice_zero_natCast, pySlice_natCast, pySliceFrom_natCast]
  norm_num
  rw [encode_take_10' hs hm, encode_slice_10_20' hs hm, encode_slice_20_52' hs hm,
    encode_drop_52' hs hm]
  simp [chkF]

theorem from_byte_encode {s : Nat} {m : PyStr} (hs : s < 10 ^ 10) (hm : 52 + m.length < 10 ^ 10) :
    Packet.from_byte_S (Packet.get_byte_S ⟨(s : Int), m⟩) = .ok ⟨(s : Int), m⟩ := by
  unfold Packet.from_byte_S
  rw [corrupt_encode hs hm]
  simp only [Bool.false_eq_true, if_false, Packet.length_S_length, Packet.seq_num_S_length,
    Packet.checksum_length, pySlice_natCast, pySliceFrom_natCast]
  norm_num
  rw [encode_slice_10_20' hs hm, encode_drop_52' hs hm]
  rw [seqF, pyInt_zfill_natStr]

theorem parse_len_encode {s : Nat} {m : PyStr} (hs : s < 10 ^ 10) (hm : 52 + m.length < 10 ^ 10)
    (r : PyStr) :
    pyInt ((Packet.get_byte_S ⟨(s : Int), m⟩ ++ r).take 10) = .ok ((52 + m.length : Nat) : Int) := by
  rw [encode_take_10 hs hm, lenF, pyInt_zfill_natStr]

/-! ### Lemmas: receive-path scenarios in rdt_3_0.py -/

theorem rdt_2_1_receive_eq_rdt_3_0_receive : Rdt30.rdt_2_1_receive = Rdt30.rdt_3_0_receive := rfl

theorem ackS_ne_nakS : strL "ACK" ≠ strL "NAK" := by decide

section ScenarioLemmas

attribute [local irreducible] md5hexS Packet.get_byte_S Packet.corrupt Packet.from_byte_S
  pyInt natStr zfill seqF lenF chkF strL

set_option maxHeartbeats 1000000 in
theorem rdt_3_0_receive_stale {s' : Nat} {m : PyStr} (hs : s' < 10 ^ 10)
    (hm : 52 + m.length < 10 ^ 10) (q : Int) (hq : (s' : Int) ≠ q)
    (hA : m ≠ strL "ACK") (hN : m ≠ strL "NAK") (r : PyStr) (snt : List PyStr)
    (ck : List Int) :
    Rdt30.rdt_3_0_receive ⟨q, Packet.get_byte_S ⟨(s' : Int), m⟩ ++ r, [], snt, ck⟩ =
      .ok (none, ⟨q, r, [], snt ++ [Packet.get_byte_S ⟨(s' : Int), strL "ACK"⟩], ck⟩) := by
  have hlen10 : ¬ ((Packet.get_byte_S ⟨(s' : Int), m⟩ ++ r).length < 10) := by
    rw [List.length_append, encode_length hs hm]
    omega
  have hlenInt : ¬ (((Packet.get_byte_S ⟨(s' : Int), m⟩ ++ r).length : Int)
      < ((52 + m.length : Nat) : Int)) := by
    rw [List.length_append, encode_length hs hm]
    push_cast
    omega
  unfold Rdt30.rdt_3_0_receive
  simp only [udt_receive, List.append_nil, Packet.length_S_length, Packet.seq_num_S_length,
    Packet.checksum_length, pySliceTo_natCast, pySlice_zero_natCast, pySliceFrom_natCast]
  rw [if_neg hlen10, parse_len_encode hs hm r]
  simp only [pySlice_zero_natCast, pySliceFrom_natCast, if_neg hlenInt]
  rw [encode_take_len hs hm r, encode_drop_len hs hm r, corrupt_encode hs hm]
  simp only [Bool.false_eq_true, not_false_iff, if_true]
  rw [from_byte_encode hs hm]
  simp only [hA, hN, hq, or_self, if_false, udt_send]

set_option maxHeartbeats 1000000 in
theorem rdt_3_0_receive_control {s' : Nat} {m : PyStr} (hs : s' < 10 ^ 10)
    (hm : 52 + m.length < 10 ^ 10) (q : Int)
    (hctl : m = strL "ACK" ∨ m = strL "NAK") (r : PyStr) (snt : List PyStr)
    (ck : List Int) :
    Rdt30.rdt_3_0_receive ⟨q, Packet.get_byte_S ⟨(s' : Int), m⟩ ++ r, [], snt, ck⟩ =
      .ok (none, ⟨q, r, [], snt, ck⟩) := by
  have hlen10 : ¬ ((Packet.get_byte_S ⟨(s' : Int), m⟩ ++ r).length < 10) := by
    rw [List.length_append, encode_length hs hm]
    omega
  have hlenInt : ¬ (((Packet.get_byte_S ⟨(s' : Int), m⟩ ++ r).length : Int)
      < ((52 + m.length : Nat) : Int)) := by
    rw [List.length_append, encode_length hs hm]
    push_cast
    omega
  unfold Rdt30.rdt_3_0_receive
  simp only [udt_receive, List.append_nil, Packet.length_S_length, Packet.seq_num_S_length,
    Packet.checksum_length, pySliceTo_natCast, pySlice_zero_natCast, pySliceFrom_natCast]
  rw [if_neg hlen10, parse_len_encode hs hm r]
  simp only [pySlice_zero_natCast, pySliceFrom_natCast, if_neg hlenInt]
  rw [encode_take_len hs hm r, encode_drop_len hs hm r, corrupt_encode hs hm]
  simp only [Bool.false_eq_true, not_false_iff, if_true]
  rw [from_byte_encode hs hm]
  rcases hctl with rfl | rfl <;>
    simp only [eq_self_iff_true, true_or, or_true, if_true]

set_option maxHeartbeats 1000000 in
theorem rdt_3_0_receive_match {s' : Nat} {m : PyStr} (hs : s' < 10 ^ 10)
    (hm : 52 + m.length < 10 ^ 10)
    (hA : m ≠ strL "ACK") (hN : m ≠ strL "NAK") (r : PyStr) (snt : List PyStr)
    (ck : List Int) :
    Rdt30.rdt_3_0_receive ⟨(s' : Int), Packet.get_byte_S ⟨(s' : Int), m⟩ ++ r, [], snt, ck⟩ =
      .ok (some m, ⟨(s' : Int) + 1, r, [],
        snt ++ [Packet.get_byte_S ⟨(s' : Int), strL "ACK"⟩], ck⟩) := by
  have hlen10 : ¬ ((Packet.get_byte_S ⟨(s' : Int), m⟩ ++ r).length < 10) := by
    rw [List.length_append, encode_length hs hm]
    omega
  have hlenInt : ¬ (((Packet.get_byte_S ⟨(s' : Int), m⟩ ++ r).length : Int)
      < ((52 + m.length : Nat) : Int)) := by
    rw [List.length_append, encode_length hs hm]
    push_cast
    omega
  unfold Rdt30.rdt_3_0_receive
  simp only [udt_receive, List.append_nil, Packet.length_S_length, Packet.seq_num_S_length,
    Packet.checksum_length, pySliceTo_natCast, pySlice_zero_natCast, pySliceFrom_natCast]
  rw [if_neg hlen10, parse_len_encode hs hm r]
  simp only [pySlice_zero_natCast, pySliceFrom_natCast, if_neg hlenInt]
  rw [encode_take_len hs hm r, encode_drop_len hs hm r, corrupt_encode hs hm]
  simp only [Bool.false_eq_true, not_false_iff, if_true]
  rw [from_byte_encode hs hm]
  simp only [hA, hN, or_self, if_false, eq_self_iff_true, if_true, udt_send]

set_option maxHeartbeats 1000000 in
theorem rdt_3_0_receive_corrupt {f : PyStr} (q : Int)
    (hparse : pyInt (f.take 10) = .ok ((f.length : Nat) : Int))
    (hflen : 10 ≤ f.length) (hcor : Packet.corrupt f = true) (r : PyStr)
    (hr : ((f ++ r).take 10) = f.take 10) (snt : List PyStr) (ck : List Int) :
    Rdt30.rdt_3_0_receive ⟨q, f ++ r, [], snt, ck⟩ =
      .ok (none, ⟨q, r, [], snt ++ [Packet.get_byte_S ⟨q, strL "NAK"⟩], ck⟩) := by
  have hlen10 : ¬ ((f ++ r).length < 10) := by
    rw [List.length_append]
    omega
  have hlenInt : ¬ (((f ++ r).length : Int) < ((f.length : Nat) : Int)) := by
    rw [List.length_append]
    push_cast
    omega
  unfold Rdt30.rdt_3_0_receive
  simp only [udt_receive, List.append_nil, Packet.length_S_length, Packet.seq_num_S_length,
    Packet.checksum_length, pySliceTo_natCast, pySlice_zero_natCast, pySliceFrom_natCast]
  rw [if_neg hlen10, hr, hparse]
  simp only [pySlice_zero_natCast, pySliceFrom_natCast, if_neg hlenInt]
  rw [List.take_left' rfl, List.drop_left' rfl, hcor]
  simp only [not_true, not_true_eq_false, if_false, udt_send]

/-! ### Lemmas: receive-path scenarios in RDT.py -/

theorem rdt_1_0_receive_nil_incoming (fuel : Nat) (q : Int) (buf : PyStr) (snt : List PyStr)
    (ck : List Int) :
    RDTpy.rdt_1_0_receive fuel ⟨q, buf, [], snt, ck⟩ =
      RDTpy.rdt_1_0_loop fuel none ⟨q, buf, [], snt, ck⟩ := by
  unfold RDTpy.rdt_1_0_receive
  simp only [udt_receive, List.append_nil]

theorem rdt_2_1_receive_nil_incoming (fuel : Nat) (q : Int) (buf : PyStr) (snt : List PyStr)
    (ck : List Int) :
    RDTpy.rdt_2_1_receive fuel ⟨q, buf, [], snt, ck⟩ =
      RDTpy.rdt_2_1_loop fuel none ⟨q, buf, [], snt, ck⟩ := by
  unfold RDTpy.rdt_2_1_receive
  simp only [udt_receive, List.append_nil]

theorem rdt_1_0_loop_short (fuel : Nat) (retS : Option PyStr) (st : RDTState)
    (h : st.byte_buffer.length < 10) :
    RDTpy.rdt_1_0_loop (fuel + 1) retS st = some (.ok (retS, st)) := by
  unfold RDTpy.rdt_1_0_loop
  rw [if_pos h]

theorem rdt_2_1_loop_short (fuel : Nat) (retS : Option PyStr) (st : RDTState)
    (h : st.byte_buffer.length < 10) :
    RDTpy.rdt_2_1_loop (fuel + 1) retS st = some (.ok (retS, st)) := by
  unfold RDTpy.rdt_2_1_loop
  rw [if_pos h]

theorem rdt_1_0_loop_parse_error (fuel : Nat) (retS : Option PyStr) (st : RDTState)
    (h : ¬ st.byte_buffer.length < 10) {e : PyErr}
    (hp : pyInt (st.byte_buffer.take 10) = .error e) :
    RDTpy.rdt_1_0_loop (fuel + 1) retS st = some (.error e) := by
  unfold RDTpy.rdt_1_0_loop
  simp only [Packet.length_S_length, pySliceTo_natCast]
  rw [if_neg h, hp]

theorem rdt_2_1_loop_parse_error (fuel : Nat) (retS : Option PyStr) (st : RDTState)
    (h : ¬ st.byte_buffer.length < 10) {e : PyErr}
    (hp : pyInt (st.byte_buffer.take 10) = .error e) :
    RDTpy.rdt_2_1_loop (fuel + 1) retS st = some (.error e) := by
  unfold RDTpy.rdt_2_1_loop
  simp only [Packet.length_S_length, pySliceTo_natCast]
  rw [if_neg h, hp]

theorem rdt_1_0_loop_incomplete (fuel : Nat) (retS : Option PyStr) (st : RDTState)
    (h : ¬ st.byte_buffer.length < 10) {L : Int}
    (hp : pyInt (st.byte_buffer.take 10) = .ok L)
    (hL : (st.byte_buffer.length : Int) < L) :
    RDTpy.rdt_1_0_loop (fuel + 1) retS st = some (.ok (retS, st)) := by
  unfold RDTpy.rdt_1_0_loop
  simp only [Packet.length_S_length, pySliceTo_natCast]
  rw [if_neg h, hp]
  simp only [if_pos hL]

theorem rdt_2_1_loop_incomplete (fuel : Nat) (retS : Option PyStr) (st : RDTState)
    (h : ¬ st.byte_buffer.length < 10) {L : Int}
    (hp : pyInt (st.byte_buffer.take 10) = .ok L)
    (hL : (st.byte_buffer.length : Int) < L) :
    RDTpy.rdt_2_1_loop (fuel + 1) retS st = some (.ok (retS, st)) := by
  unfold RDTpy.rdt_2_1_loop
  simp only [Packet.length_S_length, pySliceTo_natCast]
  rw [if_neg h, hp]
  simp only [if_pos hL]

set_option maxHeartbeats 1000000 in
theorem rdt_2_1_loop_stale {s' : Nat} {m : PyStr} (hs : s' < 10 ^ 10)
    (hm : 52 + m.length < 10 ^ 10) (q : Int) (hq : (s' : Int) ≠ q)
    (fuel : Nat) (retS : Option PyStr) (r : PyStr) (snt : List PyStr) (ck : List Int) :
    RDTpy.rdt_2_1_loop (fuel + 1) retS ⟨q, Packet.get_byte_S ⟨(s' : Int), m⟩ ++ r, [], snt, ck⟩ =
      some (.ok (retS, ⟨q, Packet.get_byte_S ⟨(s' : Int), m⟩ ++ r, [],
        snt ++ [Packet.get_byte_S ⟨(s' : Int), strL "ACK"⟩], ck⟩)) := by
  have hlen10 : ¬ ((Packet.get_byte_S ⟨(s' : Int), m⟩ ++ r).length < 10) := by
    rw [List.length_append, encode_length hs hm]
    omega
  have hlenInt : ¬ (((Packet.get_byte_S ⟨(s' : Int), m⟩ ++ r).length : Int)
      < ((52 + m.length : Nat) : Int)) := by
    rw [List.length_append, encode_length hs hm]
    push_cast
    omega
  unfold RDTpy.rdt_2_1_loop
  simp only [Packet.length_S_length, Packet.seq_num_S_length, Packet.checksum_length,
    pySliceTo_natCast, pySlice_zero_natCast, pySliceFrom_natCast]
  rw [if_neg hlen10, parse_len_encode hs hm r]
  simp only [pySlice_zero_natCast, pySliceFrom_natCast, if_neg hlenInt]
  rw [encode_take_len hs hm r, corrupt_encode hs hm]
  simp only [Bool.false_eq_true, not_false_iff, if_true]
  rw [from_byte_encode hs hm]
  simp only [hq, if_false, udt_send]

set_option maxHeartbeats 1000000 in
theorem rdt_1_0_loop_decode_error {f : PyStr} (fuel : Nat) (retS : Option PyStr) (q : Int)
    (hparse : pyInt (f.take 10) = .ok ((f.length : Nat) : Int))
    (hflen : 10 ≤ f.length) {e : PyErr} (herr : Packet.from_byte_S f = .error e) (r : PyStr)
    (hr : ((f ++ r).take 10) = f.take 10) (snt : List PyStr) (ck : List Int) :
    RDTpy.rdt_1_0_loop (fuel + 1) retS ⟨q, f ++ r, [], snt, ck⟩ = some (.error e) := by
  have hlen10 : ¬ ((f ++ r).length < 10) := by
    rw [List.length_append]
    omega
  have hlenInt : ¬ (((f ++ r).length : Int) < ((f.length : Nat) : Int)) := by
    rw [List.length_append]
    push_cast
    omega
  unfold RDTpy.rdt_1_0_loop
  simp only [Packet.length_S_length, pySliceTo_natCast]
  rw [if_neg hlen10, hr, hparse]
  simp only [pySlice_zero_natCast, pySliceFrom_natCast, if_neg hlenInt]
  rw [List.take_left' rfl, herr]

set_option maxHeartbeats 1000000 in
theorem rdt_2_1_loop_corrupt_step {f : PyStr} (fuel : Nat) (retS : Option PyStr) (q : Int)
    (hparse : pyInt (f.take 10) = .ok ((f.length : Nat) : Int))
    (hflen : 10 ≤ f.length) (hcor : Packet.corrupt f = true) (r : PyStr)
    (hr : ((f ++ r).take 10) = f.take 10) (snt : List PyStr) (ck : List Int) :
    RDTpy.rdt_2_1_loop (fuel + 1) retS ⟨q, f ++ r, [], snt, ck⟩ =
      RDTpy.rdt_2_1_loop fuel retS ⟨q, r, [],
        snt ++ [Packet.get_byte_S ⟨q, strL "NAK"⟩], ck⟩ := by
  have hlen10 : ¬ ((f ++ r).length < 10) := by
    rw [List.length_append]
    omega
  have hlenInt : ¬ (((f ++ r).length : Int) < ((f.length : Nat) : Int)) := by
    rw [List.length_append]
    push_cast
    omega
  conv_lhs => rw [RDTpy.rdt_2_1_loop]
  simp only [Packet.length_S_length, Packet.seq_num_S_length, Packet.checksum_length,
    pySliceTo_natCast, pySlice_zero_natCast, pySliceFrom_natCast]
  rw [if_neg hlen10, hr, hparse]
  simp only [pySlice_zero_natCast, pySliceFrom_natCast, if_neg hlenInt]
  rw [List.take_left' rfl, List.drop_left' rfl, hcor]
  simp only [not_true, not_true_eq_false, if_false, udt_send]

/-! ### Lemmas: send-path scenarios in rdt_3_0.py -/

set_option maxHeartbeats 1000000 in
theorem rdt_2_1_send_step_nak {a : Nat} {m : PyStr} (ha : a < 10 ^ 10)
    (hm : 52 + m.length < 10 ^ 10) (hnak : m = strL "NAK") (p : Packet) (q : Int)
    (r : PyStr) (snt : List PyStr) (ck : List Int) :
    Rdt30.rdt_2_1_send_step p
        ⟨q, Packet.get_byte_S ⟨(a : Int), m⟩ ++ r, [], snt, ck⟩ =
      .next ⟨q, r, [], snt ++ [p.get_byte_S], ck⟩ := by
  have hlen10 : ¬ ((Packet.get_byte_S ⟨(a : Int), m⟩ ++ r).length < 10) := by
    rw [List.length_append, encode_length ha hm]
    omega
  have hlenInt : ¬ (((Packet.get_byte_S ⟨(a : Int), m⟩ ++ r).length : Int)
      < ((52 + m.length : Nat) : Int)) := by
    rw [List.length_append, encode_length ha hm]
    push_cast
    omega
  unfold Rdt30.rdt_2_1_send_step
  simp only [udt_receive, List.append_nil, Packet.length_S_length, Packet.seq_num_S_length,
    Packet.checksum_length, pySliceTo_natCast, pySlice_zero_natCast, pySliceFrom_natCast]
  rw [if_neg hlen10, parse_len_encode ha hm r]
  simp only [pySlice_zero_natCast, pySliceFrom_natCast, if_neg hlenInt]
  rw [encode_take_len ha hm r, encode_drop_len ha hm r, corrupt_encode ha hm]
  simp only [Bool.false_eq_true, not_false_iff, if_true]
  rw [from_byte_encode ha hm]
  simp only [hnak, eq_self_iff_true, if_true, udt_send]

set_option maxHeartbeats 1000000 in
theorem rdt_2_1_send_step_ack {a : Nat} {m : PyStr} (ha : a < 10 ^ 10)
    (hm : 52 + m.length < 10 ^ 10) (hack : m = strL "ACK") (p : Packet) (q : Int)
    (r : PyStr) (snt : List PyStr) (ck : List Int) :
    Rdt30.rdt_2_1_send_step p
        ⟨q, Packet.get_byte_S ⟨(a : Int), m⟩ ++ r, [], snt, ck⟩ =
      .ret none ⟨q + 1, r, [], snt, ck⟩ := by
  have hlen10 : ¬ ((Packet.get_byte_S ⟨(a : Int), m⟩ ++ r).length < 10) := by
    rw [List.length_append, encode_length ha hm]
    omega
  have hlenInt : ¬ (((Packet.get_byte_S ⟨(a : Int), m⟩ ++ r).length : Int)
      < ((52 + m.length : Nat) : Int)) := by
    rw [List.length_append, encode_length ha hm]
    push_cast
    omega
  unfold Rdt30.rdt_2_1_send_step
  simp only [udt_receive, List.append_nil, Packet.length_S_length, Packet.seq_num_S_length,
    Packet.checksum_length, pySliceTo_natCast, pySlice_zero_natCast, pySliceFrom_natCast]
  rw [if_neg hlen10, parse_len_encode ha hm r]
  simp only [pySlice_zero_natCast, pySliceFrom_natCast, if_neg hlenInt]
  rw [encode_take_len ha hm r, encode_drop_len ha hm r, corrupt_encode ha hm]
  simp only [Bool.false_eq_true, not_false_iff, if_true]
  rw [from_byte_encode ha hm]
  have hne : (strL "ACK" = strL "NAK") = False := eq_false ackS_ne_nakS
  simp only [hack, hne, if_false, eq_self_iff_true, if_true]

set_option maxHeartbeats 1000000 in
theorem rdt_2_1_send_step_corrupt {f : PyStr} (p : Packet) (q : Int)
    (hparse : pyInt (f.take 10) = .ok ((f.length : Nat) : Int))
    (hflen : 10 ≤ f.length) (hcor : Packet.corrupt f = true) (r : PyStr)
    (hr : ((f ++ r).take 10) = f.take 10) (snt : List PyStr) (ck : List Int) :
    Rdt30.rdt_2_1_send_step p ⟨q, f ++ r, [], snt, ck⟩ =
      .next ⟨q, r, [], snt ++ [p.get_byte_S], ck⟩ := by
  have hlen10 : ¬ ((f ++ r).length < 10) := by
    rw [List.length_append]
    omega
  have hlenInt : ¬ (((f ++ r).length : Int) < ((f.length : Nat) : Int)) := by
    rw [List.length_append]
    push_cast
    omega
  unfold Rdt30.rdt_2_1_send_step
  simp only [udt_receive, List.append_nil, Packet.length_S_length, Packet.seq_num_S_length,
    Packet.checksum_length, pySliceTo_natCast, pySlice_zero_natCast, pySliceFrom_natCast]
  rw [if_neg hlen10, hr, hparse]
  simp only [pySlice_zero_natCast, pySliceFrom_natCast, if_neg hlenInt]
  rw [List.take_left' rfl, List.drop_left' rfl, hcor]
  simp only [not_true, not_true_eq_false, if_false, udt_send]

theorem rdt_3_0_send_step_timeout (p : Packet) (tlast now now2 : Int)
    (hnow : tlast + 1 < now) (q : Int) (buf : PyStr) (inc : List PyStr) (snt : List PyStr)
    (ck : List Int) :
    Rdt30.rdt_3_0_send_step p tlast ⟨q, buf, inc, snt, now :: now2 :: ck⟩ =
      (now2, .next ⟨q, [], inc, snt ++ [p.get_byte_S], ck⟩) := by
  unfold Rdt30.rdt_3_0_send_step
  simp only [pyTime]
  rw [if_pos hnow]
  simp only [udt_send]

theorem rdt_3_0_send_loop_next {p : Packet} {tlast : Int} {st : RDTState} {tl1 : Int}
    {st1 : RDTState} (h : Rdt30.rdt_3_0_send_step p tlast st = (tl1, .next st1)) (fuel : Nat) :
    Rdt30.rdt_3_0_send_loop (fuel + 1) p tlast st = Rdt30.rdt_3_0_send_loop fuel p tl1 st1 := by
  conv_lhs => rw [Rdt30.rdt_3_0_send_loop]
  rw [h]

theorem rdt_3_0_send_step_no_timeout (p : Packet) (tlast now : Int)
    (hnow : ¬ (tlast + 1 < now)) (q : Int) (buf : PyStr) (inc : List PyStr) (snt : List PyStr)
    (ck : List Int) :
    Rdt30.rdt_3_0_send_step p tlast ⟨q, buf, inc, snt, now :: ck⟩ =
      (tlast, Rdt30.rdt_3_0_send_body p ⟨q, buf, inc, snt, ck⟩) := by
  unfold Rdt30.rdt_3_0_send_step
  simp only [pyTime]
  rw [if_neg hnow]

set_option maxHeartbeats 1000000 in
theorem rdt_3_0_send_body_ack_mismatch {a : Nat} {m : PyStr} (ha : a < 10 ^ 10)
    (hm : 52 + m.length < 10 ^ 10) (hack : m = strL "ACK") (p : Packet)
    (q : Int) (hne : (a : Int) ≠ q) (r : PyStr) (snt : List PyStr) (ck : List Int) :
    Rdt30.rdt_3_0_send_body p ⟨q, Packet.get_byte_S ⟨(a : Int), m⟩ ++ r, [], snt, ck⟩ =
      .next ⟨q, r, [], snt, ck⟩ := by
  have hlen10 : ¬ ((Packet.get_byte_S ⟨(a : Int), m⟩ ++ r).length < 10) := by
    rw [List.length_append, encode_length ha hm]
    omega
  have hlenInt : ¬ (((Packet.get_byte_S ⟨(a : Int), m⟩ ++ r).length : Int)
      < ((52 + m.length : Nat) : Int)) := by
    rw [List.length_append, encode_length ha hm]
    push_cast
    omega
  unfold Rdt30.rdt_3_0_send_body
  simp only [udt_receive, List.append_nil, Packet.length_S_length, Packet.seq_num_S_length,
    Packet.checksum_length, pySliceTo_natCast, pySlice_zero_natCast, pySliceFrom_natCast]
  rw [if_neg hlen10, parse_len_encode ha hm r]
  simp only [pySlice_zero_natCast, pySliceFrom_natCast, if_neg hlenInt]
  rw [encode_take_len ha hm r, encode_drop_len ha hm r, corrupt_encode ha hm]
  simp only [Bool.false_eq_true, not_false_iff, if_true]
  rw [from_byte_encode ha hm]
  have hne2 : (strL "ACK" = strL "NAK") = False := eq_false ackS_ne_nakS
  simp only [hack, hne2, if_false, eq_self_iff_true, if_true, ne_eq, hne, not_false_iff]

set_option maxHeartbeats 1000000 in
theorem rdt_3_0_send_body_ack_match {a : Nat} {m : PyStr} (ha : a < 10 ^ 10)
    (hm : 52 + m.length < 10 ^ 10) (hack : m = strL "ACK") (p : Packet)
    (r : PyStr) (snt : List PyStr) (ck : List Int) :
    Rdt30.rdt_3_0_send_body p
        ⟨(a : Int), Packet.get_byte_S ⟨(a : Int), m⟩ ++ r, [], snt, ck⟩ =
      .ret none ⟨(a : Int) + 1, r, [], snt, ck⟩ := by
  have hlen10 : ¬ ((Packet.get_byte_S ⟨(a : Int), m⟩ ++ r).length < 10) := by
    rw [List.length_append, encode_length ha hm]
    omega
  have hlenInt : ¬ (((Packet.get_byte_S ⟨(a : Int), m⟩ ++ r).length : Int)
      < ((52 + m.length : Nat) : Int)) := by
    rw [List.length_append, encode_length ha hm]
    push_cast
    omega
  unfold Rdt30.rdt_3_0_send_body
  simp only [udt_receive, List.append_nil, Packet.length_S_length, Packet.seq_num_S_length,
    Packet.checksum_length, pySliceTo_natCast, pySlice_zero_natCast, pySliceFrom_natCast]
  rw [if_neg hlen10, parse_len_encode ha hm r]
  simp only [pySlice_zero_natCast, pySliceFrom_natCast, if_neg hlenInt]
  rw [encode_take_len ha hm r, encode_drop_len ha hm r, corrupt_encode ha hm]
  simp only [Bool.false_eq_true, not_false_iff, if_true]
  rw [from_byte_encode ha hm]
  have hne2 : (strL "ACK" = strL "NAK") = False := eq_false ackS_ne_nakS
  simp only [hack, hne2, if_false, eq_self_iff_true, if_true, ne_eq, not_true, not_true_eq_false]

set_option maxHeartbeats 1000000 in
theorem rdt_3_0_send_body_nak_match {a : Nat} {m : PyStr} (ha : a < 10 ^ 10)
    (hm : 52 + m.length < 10 ^ 10) (hnak : m = strL "NAK") (p : Packet)
    (r : PyStr) (snt : List PyStr) (ck : List Int) :
    Rdt30.rdt_3_0_send_body p
        ⟨(a : Int), Packet.get_byte_S ⟨(a : Int), m⟩ ++ r, [], snt, ck⟩ =
      .next ⟨(a : Int), r, [], snt ++ [p.get_byte_S], ck⟩ := by
  have hlen10 : ¬ ((Packet.get_byte_S ⟨(a : Int), m⟩ ++ r).length < 10) := by
    rw [List.length_append, encode_length ha hm]
    omega
  have hlenInt : ¬ (((Packet.get_byte_S ⟨(a : Int), m⟩ ++ r).length : Int)
      < ((52 + m.length : Nat) : Int)) := by
    rw [List.length_append, encode_length ha hm]
    push_cast
    omega
  unfold Rdt30.rdt_3_0_send_body
  simp only [udt_receive, List.append_nil, Packet.length_S_length, Packet.seq_num_S_length,
    Packet.checksum_length, pySliceTo_natCast, pySlice_zero_natCast, pySliceFrom_natCast]
  rw [if_neg hlen10, parse_len_encode ha hm r]
  simp only [pySlice_zero_natCast, pySliceFrom_natCast, if_neg hlenInt]
  rw [encode_take_len ha hm r, encode_drop_len ha hm r, corrupt_encode ha hm]
  simp only [Bool.false_eq_true, not_false_iff, if_true]
  rw [from_byte_encode ha hm]
  simp only [hnak, eq_self_iff_true, if_true, ne_eq, not_true, not_true_eq_false, if_false,
    udt_send]

/-! ### Lemmas: loop and wrapper reductions -/

theorem from_byte_corrupt {f : PyStr} (h : Packet.corrupt f = true) :
    Packet.from_byte_S f = .error .runtimeError := by
  unfold Packet.from_byte_S
  rw [if_pos h]

theorem rdt_2_1_send_loop_next {p : Packet} {st st1 : RDTState}
    (h : Rdt30.rdt_2_1_send_step p st = .next st1) (fuel : Nat) :
    Rdt30.rdt_2_1_send_loop (fuel + 1) p st = Rdt30.rdt_2_1_send_loop fuel p st1 := by
  conv_lhs => rw [Rdt30.rdt_2_1_send_loop]
  rw [h]

theorem rdt_2_1_send_loop_ret {p : Packet} {st st1 : RDTState} {v : Option PyStr}
    (h : Rdt30.rdt_2_1_send_step p st = .ret v st1) (fuel : Nat) :
    Rdt30.rdt_2_1_send_loop (fuel + 1) p st = some (.ok (v, st1)) := by
  conv_lhs => rw [Rdt30.rdt_2_1_send_loop]
  rw [h]

theorem rdt_3_0_send_loop_ret {p : Packet} {tlast : Int} {st st1 : RDTState} {tl1 : Int}
    {v : Option PyStr} (h : Rdt30.rdt_3_0_send_step p tlast st = (tl1, .ret v st1)) (fuel : Nat) :
    Rdt30.rdt_3_0_send_loop (fuel + 1) p tlast st = some (.ok (v, st1)) := by
  conv_lhs => rw [Rdt30.rdt_3_0_send_loop]
  rw [h]

theorem send_guard (m : PyStr) : m ≠ strL "ACK" ∨ m ≠ strL "NAK" := by
  by_cases h : m = strL "ACK"
  · right
    rw [h]
    exact ackS_ne_nakS
  · left
    exact h

theorem rdt_2_1_send_unfold (fuel : Nat) (q : Int) (buf : PyStr) (inc : List PyStr)
    (snt : List PyStr) (ck : List Int) (m : PyStr) :
    Rdt30.rdt_2_1_send fuel ⟨q, buf, inc, snt, ck⟩ m =
      Rdt30.rdt_2_1_send_loop fuel ⟨q, m⟩
        ⟨q, buf, inc, snt ++ [Packet.get_byte_S ⟨q, m⟩], ck⟩ := by
  unfold Rdt30.rdt_2_1_send
  rw [if_pos (send_guard m)]
  simp only [udt_send]

theorem rdt_3_0_send_unfold (fuel : Nat) (q : Int) (buf : PyStr) (inc : List PyStr)
    (snt : List PyStr) (t0 : Int) (ck : List Int) (m : PyStr) :
    Rdt30.rdt_3_0_send fuel ⟨q, buf, inc, snt, t0 :: ck⟩ m =
      Rdt30.rdt_3_0_send_loop fuel ⟨q, m⟩ t0
        ⟨q, buf, inc, snt ++ [Packet.get_byte_S ⟨q, m⟩], ck⟩ := by
  unfold Rdt30.rdt_3_0_send
  simp only [pyTime]
  rw [if_pos (send_guard m)]
  simp only [udt_send]

set_option maxHeartbeats 1000000 in
theorem rdt_3_0_send_body_nak_mismatch {a : Nat} {m : PyStr} (ha : a < 10 ^ 10)
    (hm : 52 + m.length < 10 ^ 10) (hnak : m = strL "NAK") (p : Packet)
    (q : Int) (hne : (a : Int) ≠ q) (r : PyStr) (snt : List PyStr) (ck : List Int) :
    Rdt30.rdt_3_0_send_body p ⟨q, Packet.get_byte_S ⟨(a : Int), m⟩ ++ r, [], snt, ck⟩ =
      .next ⟨q, r, [], snt, ck⟩ := by
  have hlen10 : ¬ ((Packet.get_byte_S ⟨(a : Int), m⟩ ++ r).length < 10) := by
    rw [List.length_append, encode_length ha hm]
    omega
  have hlenInt : ¬ (((Packet.get_byte_S ⟨(a : Int), m⟩ ++ r).length : Int)
      < ((52 + m.length : Nat) : Int)) := by
    rw [List.length_append, encode_length ha hm]
    push_cast
    omega
  unfold Rdt30.rdt_3_0_send_body
  simp only [udt_receive, List.append_nil, Packet.length_S_length, Packet.seq_num_S_length,
    Packet.checksum_length, pySliceTo_natCast, pySlice_zero_natCast, pySliceFrom_natCast]
  rw [if_neg hlen10, parse_len_encode ha hm r]
  simp only [pySlice_zero_natCast, pySliceFrom_natCast, if_neg hlenInt]
  rw [encode_take_len ha hm r, encode_drop_len ha hm r, corrupt_encode ha hm]
  simp only [Bool.false_eq_true, not_false_iff, if_true]
  rw [from_byte_encode ha hm]
  simp only [hnak, eq_self_iff_true, if_true, ne_eq, hne, not_false_iff]

set_option maxHeartbeats 1000000 in
theorem rdt_3_0_send_body_corrupt {f : PyStr} (p : Packet) (q : Int)
    (hparse : pyInt (f.take 10) = .ok ((f.length : Nat) : Int))
    (hflen : 10 ≤ f.length) (hcor : Packet.corrupt f = true) (r : PyStr)
    (hr : ((f ++ r).take 10) = f.take 10) (snt : List PyStr) (ck : List Int) :
    Rdt30.rdt_3_0_send_body p ⟨q, f ++ r, [], snt, ck⟩ =
      .next ⟨q, r, [], snt ++ [p.get_byte_S], ck⟩ := by
  have hlen10 : ¬ ((f ++ r).length < 10) := by
    rw [List.length_append]
    omega
  have hlenInt : ¬ (((f ++ r).length : Int) < ((f.length : Nat) : Int)) := by
    rw [List.length_append]
    push_cast
    omega
  unfold Rdt30.rdt_3_0_send_body
  simp only [udt_receive, List.append_nil, Packet.length_S_length, Packet.seq_num_S_length,
    Packet.checksum_length, pySliceTo_natCast, pySlice_zero_natCast, pySliceFrom_natCast]
  rw [if_neg hlen10, hr, hparse]
  simp only [pySlice_zero_natCast, pySliceFrom_natCast, if_neg hlenInt]
  rw [List.take_left' rfl, List.drop_left' rfl, hcor]
  simp only [not_true, not_true_eq_false, if_false, udt_send]

end ScenarioLemmas

/-! ### The claims -/

/-- C1: for every sequence number that fits the fixed 10-character field and
every payload whose frame length fits the 10-character length field,
decoding the bytes produced by encoding succeeds — the frame is not
reported corrupt — and returns exactly that sequence number and payload:
`Packet.from_byte_S (Packet(seq, msg).get_byte_S())` is `ok ⟨seq, msg⟩`. -/
theorem C1_codec_roundtrip (s : Nat) (m : PyStr) (hs : s < 10 ^ 10)
    (hm : 52 + m.length < 10 ^ 10) :
    Packet.corrupt (Packet.get_byte_S ⟨(s : Int), m⟩) = false ∧
    Packet.from_byte_S (Packet.get_byte_S ⟨(s : Int), m⟩) = .ok ⟨(s : Int), m⟩ :=
  ⟨corrupt_encode hs hm, from_byte_encode hs hm⟩

/-- Witness for C1 at sequence number 5 and payload `'hello'`. -/
theorem C1_codec_roundtrip_witness :
    (5 < 10 ^ 10 ∧ 52 + (strL "hello").length < 10 ^ 10) ∧
    Packet.corrupt (Packet.get_byte_S ⟨((5 : Nat) : Int), strL "hello"⟩) = false ∧
    Packet.from_byte_S (Packet.get_byte_S ⟨((5 : Nat) : Int), strL "hello"⟩) =
      .ok ⟨((5 : Nat) : Int), strL "hello"⟩ :=
  ⟨⟨by decide, by decide⟩, C1_codec_roundtrip 5 (strL "hello") (by decide) (by decide)⟩

set_option maxRecDepth 10000 in
/-- C2 counterexample: the claim fails twice on the code.  First, in
rdt_3_0.py's level-2 sender a non-corrupt ACK whose sequence number (5)
differs from the sequence number of the frame just sent (1) still advances
the sender's counter from 1 to 2 and ends the send.  Second, in
rdt_3_0.py's level-3 sender a non-corrupt NAK whose sequence number (5)
differs from the frame just sent (1) does NOT cause a retransmission — the
whole run sends exactly one copy of the data frame, the NAK being skipped
and the send completed by the later matching ACK — contradicting the
claim's "on receiving a NAK the sender retransmits the identical data
frame". -/
theorem C2_counterexample :
    Rdt30.rdt_2_1_send 2 ⟨1, [], [Packet.get_byte_S ⟨5, strL "ACK"⟩], [], []⟩ (strL "hello") =
      some (.ok (none, ⟨2, [], [], [Packet.get_byte_S ⟨1, strL "hello"⟩], []⟩)) ∧
    (5 : Int) ≠ 1 ∧
    Rdt30.rdt_3_0_send 2
        ⟨1, [], [Packet.get_byte_S ⟨5, strL "NAK"⟩ ++ Packet.get_byte_S ⟨1, strL "ACK"⟩], [],
          [0, 0, 0]⟩ (strL "hello") =
      some (.ok (none, ⟨2, [], [], [Packet.get_byte_S ⟨1, strL "hello"⟩], []⟩)) :=
  ⟨by rfl, by decide, by rfl⟩

/-- C2 (amended): in the Level-3 sender a non-corrupt ACK advances the
sequence counter exactly when its sequence number matches the current one,
a non-matching ACK or NAK is skipped with no action (in particular a
non-matching NAK triggers no retransmission), and a matching NAK triggers
retransmission of the identical data frame without advancing the counter;
in the Level-2 sender a NAK of any sequence number triggers retransmission
of the identical frame without advancing, but a non-corrupt ACK advances
the counter regardless of its sequence number. -/
theorem C2_amended_ack_handling :
    (∀ (a : Nat) (m : PyStr), a < 10 ^ 10 → 52 + m.length < 10 ^ 10 → m = strL "NAK" →
      ∀ (p : Packet) (q : Int) (r : PyStr) (snt : List PyStr) (ck : List Int),
        Rdt30.rdt_2_1_send_step p ⟨q, Packet.get_byte_S ⟨(a : Int), m⟩ ++ r, [], snt, ck⟩ =
          .next ⟨q, r, [], snt ++ [p.get_byte_S], ck⟩) ∧
    (∀ (a : Nat) (m : PyStr), a < 10 ^ 10 → 52 + m.length < 10 ^ 10 → m = strL "ACK" →
      ∀ (p : Packet) (q : Int) (r : PyStr) (snt : List PyStr) (ck : List Int),
        Rdt30.rdt_2_1_send_step p ⟨q, Packet.get_byte_S ⟨(a : Int), m⟩ ++ r, [], snt, ck⟩ =
          .ret none ⟨q + 1, r, [], snt, ck⟩) ∧
    (∀ (a : Nat) (m : PyStr), a < 10 ^ 10 → 52 + m.length < 10 ^ 10 → m = strL "ACK" →
      ∀ (p : Packet) (q : Int), (a : Int) ≠ q → ∀ (r : PyStr) (snt : List PyStr) (ck : List Int),
        Rdt30.rdt_3_0_send_body p ⟨q, Packet.get_byte_S ⟨(a : Int), m⟩ ++ r, [], snt, ck⟩ =
          .next ⟨q, r, [], snt, ck⟩) ∧
    (∀ (a : Nat) (m : PyStr), a < 10 ^ 10 → 52 + m.length < 10 ^ 10 → m = strL "ACK" →
      ∀ (p : Packet) (r : PyStr) (snt : List PyStr) (ck : List Int),
        Rdt30.rdt_3_0_send_body p
            ⟨(a : Int), Packet.get_byte_S ⟨(a : Int), m⟩ ++ r, [], snt, ck⟩ =
          .ret none ⟨(a : Int) + 1, r, [], snt, ck⟩) ∧
    (∀ (a : Nat) (m : PyStr), a < 10 ^ 10 → 52 + m.length < 10 ^ 10 → m = strL "NAK" →
      ∀ (p : Packet) (r : PyStr) (snt : List PyStr) (ck : List Int),
        Rdt30.rdt_3_0_send_body p
            ⟨(a : Int), Packet.get_byte_S ⟨(a : Int), m⟩ ++ r, [], snt, ck⟩ =
          .next ⟨(a : Int), r, [], snt ++ [p.get_byte_S], ck⟩) ∧
    (∀ (a : Nat) (m : PyStr), a < 10 ^ 10 → 52 + m.length < 10 ^ 10 → m = strL "NAK" →
      ∀ (p : Packet) (q : Int), (a : Int) ≠ q → ∀ (r : PyStr) (snt : List PyStr) (ck : List Int),
        Rdt30.rdt_3_0_send_body p ⟨q, Packet.get_byte_S ⟨(a : Int), m⟩ ++ r, [], snt, ck⟩ =
          .next ⟨q, r, [], snt, ck⟩) :=
  ⟨fun _ _ ha hm hnak p q r snt ck => rdt_2_1_send_step_nak ha hm hnak p q r snt ck,
   fun _ _ ha hm hack p q r snt ck => rdt_2_1_send_step_ack ha hm hack p q r snt ck,
   fun _ _ ha hm hack p q hne r snt ck =>
     rdt_3_0_send_body_ack_mismatch ha hm hack p q hne r snt ck,
   fun _ _ ha hm hack p r snt ck => rdt_3_0_send_body_ack_match ha hm hack p r snt ck,
   fun _ _ ha hm hnak p r snt ck => rdt_3_0_send_body_nak_match ha hm hnak p r snt ck,
   fun _ _ ha hm hnak p q hne r snt ck =>
     rdt_3_0_send_body_nak_mismatch ha hm hnak p q hne r snt ck⟩

/-- Witness for the amended C2 with sequence number 2, current counter 1. -/
theorem C2_amended_ack_handling_witness :
    (2 < 10 ^ 10 ∧ 52 + (strL "ACK").length < 10 ^ 10 ∧ 52 + (strL "NAK").length < 10 ^ 10 ∧
      ((2 : Nat) : Int) ≠ 1) ∧
    Rdt30.rdt_2_1_send_step ⟨1, strL "x"⟩
        ⟨1, Packet.get_byte_S ⟨((2 : Nat) : Int), strL "NAK"⟩ ++ [], [], [], []⟩ =
      .next ⟨1, [], [], [] ++ [Packet.get_byte_S ⟨1, strL "x"⟩], []⟩ ∧
    Rdt30.rdt_2_1_send_step ⟨1, strL "x"⟩
        ⟨1, Packet.get_byte_S ⟨((2 : Nat) : Int), strL "ACK"⟩ ++ [], [], [], []⟩ =
      .ret none ⟨1 + 1, [], [], [], []⟩ ∧
    Rdt30.rdt_3_0_send_body ⟨1, strL "x"⟩
        ⟨1, Packet.get_byte_S ⟨((2 : Nat) : Int), strL "ACK"⟩ ++ [], [], [], []⟩ =
      .next ⟨1, [], [], [], []⟩ ∧
    Rdt30.rdt_3_0_send_body ⟨1, strL "x"⟩
        ⟨((2 : Nat) : Int), Packet.get_byte_S ⟨((2 : Nat) : Int), strL "ACK"⟩ ++ [], [], [], []⟩ =
      .ret none ⟨((2 : Nat) : Int) + 1, [], [], [], []⟩ ∧
    Rdt30.rdt_3_0_send_body ⟨1, strL "x"⟩
        ⟨((2 : Nat) : Int), Packet.get_byte_S ⟨((2 : Nat) : Int), strL "NAK"⟩ ++ [], [], [], []⟩ =
      .next ⟨((2 : Nat) : Int), [], [], [] ++ [Packet.get_byte_S ⟨1, strL "x"⟩], []⟩ ∧
    Rdt30.rdt_3_0_send_body ⟨1, strL "x"⟩
        ⟨1, Packet.get_byte_S ⟨((2 : Nat) : Int), strL "NAK"⟩ ++ [], [], [], []⟩ =
      .next ⟨1, [], [], [], []⟩ :=
  ⟨⟨by decide, by decide, by decide, by decide⟩,
   C2_amended_ack_handling.1 2 (strL "NAK") (by decide) (by decide) rfl ⟨1, strL "x"⟩ 1 [] [] [],
   C2_amended_ack_handling.2.1 2 (strL "ACK") (by decide) (by decide) rfl ⟨1, strL "x"⟩ 1 [] [] [],
   C2_amended_ack_handling.2.2.1 2 (strL "ACK") (by decide) (by decide) rfl ⟨1, strL "x"⟩ 1
     (by decide) [] [] [],
   C2_amended_ack_handling.2.2.2.1 2 (strL "ACK") (by decide) (by decide) rfl ⟨1, strL "x"⟩ [] [] [],
   C2_amended_ack_handling.2.2.2.2.1 2 (strL "NAK") (by decide) (by decide) rfl ⟨1, strL "x"⟩
     [] [] [],
   C2_amended_ack_handling.2.2.2.2.2 2 (strL "NAK") (by decide) (by decide) rfl ⟨1, strL "x"⟩ 1
     (by decide) [] [] []⟩

set_option maxRecDepth 10000 in
/-- C3 (code bug): on extracting a non-corrupt data frame with the expected
sequence number, RDT.py's level-2 receiver constructs the ACK packet
(`ac = Packet(self.seq_num, 'ACK')`, per its own comment "create and send
an ACK") but then calls `self.network.udt_send(p.get_byte_S())`,
transmitting the received DATA frame's bytes instead of the ACK frame; the
counter still advances by 1 and the payload is returned.  The rdt_3_0.py
version of the same function transmits the actual ACK frame. -/
theorem C3_ack_transmission_bug :
    RDTpy.rdt_2_1_receive 2 ⟨1, Packet.get_byte_S ⟨1, strL "hi"⟩, [], [], []⟩ =
      some (.ok (some (strL "hi"), ⟨2, [], [], [Packet.get_byte_S ⟨1, strL "hi"⟩], []⟩)) ∧
    Packet.get_byte_S ⟨1, strL "hi"⟩ ≠ Packet.get_byte_S ⟨1, strL "ACK"⟩ ∧
    Rdt30.rdt_2_1_receive ⟨1, Packet.get_byte_S ⟨1, strL "hi"⟩, [], [], []⟩ =
      .ok (some (strL "hi"), ⟨2, [], [], [Packet.get_byte_S ⟨1, strL "ACK"⟩], []⟩) :=
  ⟨by rfl, by decide, by rfl⟩

/-- C4: a non-corrupt data frame whose sequence number differs from the
expected one is re-acknowledged with an ACK carrying the received frame's
own sequence number, the local counter is unchanged, and nothing is
returned to the caller — in RDT.py's level-2 receiver and in rdt_3_0.py's
level-3 receiver alike. -/
theorem C4_stale_frame_reacked_not_redelivered (s' : Nat) (m : PyStr) (hs : s' < 10 ^ 10)
    (hm : 52 + m.length < 10 ^ 10) (q : Int) (hq : (s' : Int) ≠ q)
    (hA : m ≠ strL "ACK") (hN : m ≠ strL "NAK") (r : PyStr) (snt : List PyStr) (ck : List Int) :
    (∀ fuel : Nat,
      RDTpy.rdt_2_1_receive (fuel + 1)
          ⟨q, Packet.get_byte_S ⟨(s' : Int), m⟩ ++ r, [], snt, ck⟩ =
        some (.ok (none, ⟨q, Packet.get_byte_S ⟨(s' : Int), m⟩ ++ r, [],
          snt ++ [Packet.get_byte_S ⟨(s' : Int), strL "ACK"⟩], ck⟩))) ∧
    Rdt30.rdt_3_0_receive ⟨q, Packet.get_byte_S ⟨(s' : Int), m⟩ ++ r, [], snt, ck⟩ =
      .ok (none, ⟨q, r, [], snt ++ [Packet.get_byte_S ⟨(s' : Int), strL "ACK"⟩], ck⟩) := by
  constructor
  · intro fuel
    rw [rdt_2_1_receive_nil_incoming, rdt_2_1_loop_stale hs hm q hq fuel none r snt ck]
  · exact rdt_3_0_receive_stale hs hm q hq hA hN r snt ck

/-- Witness for C4 with received sequence number 7 and expected number 1. -/
theorem C4_stale_frame_reacked_not_redelivered_witness :
    (7 < 10 ^ 10 ∧ 52 + (strL "old").length < 10 ^ 10 ∧ ((7 : Nat) : Int) ≠ 1 ∧
      strL "old" ≠ strL "ACK" ∧ strL "old" ≠ strL "NAK") ∧
    (∀ fuel : Nat,
      RDTpy.rdt_2_1_receive (fuel + 1)
          ⟨1, Packet.get_byte_S ⟨((7 : Nat) : Int), strL "old"⟩ ++ [], [], [], []⟩ =
        some (.ok (none, ⟨1, Packet.get_byte_S ⟨((7 : Nat) : Int), strL "old"⟩ ++ [], [],
          [] ++ [Packet.get_byte_S ⟨((7 : Nat) : Int), strL "ACK"⟩], []⟩))) ∧
    Rdt30.rdt_3_0_receive ⟨1, Packet.get_byte_S ⟨((7 : Nat) : Int), strL "old"⟩ ++ [], [], [], []⟩ =
      .ok (none, ⟨1, [], [], [] ++ [Packet.get_byte_S ⟨((7 : Nat) : Int), strL "ACK"⟩], []⟩) :=
  ⟨⟨by decide, by decide, by decide, by decide, by decide⟩,
   C4_stale_frame_reacked_not_redelivered 7 (strL "old") (by decide) (by decide) 1 (by decide)
     (by decide) (by decide) [] [] []⟩

/-- C5: in the Level-3 sender, whenever the fixed 1-unit timeout since the
last (re)transmission has expired at the top of the wait loop — in
particular whenever no decodable ACK/NAK arrived in time — the iteration
clears the entire receive byte buffer, retransmits the original data frame
unchanged, resets the timer to the current clock reading, and the loop
continues waiting; this step applies unchanged to every later iteration,
so it repeats until a matching acknowledgment arrives. -/
theorem C5_timeout_clears_buffer_and_retransmits (p : Packet) (tlast now now2 : Int)
    (h : tlast + 1 < now) (q : Int) (buf : PyStr) (inc : List PyStr) (snt : List PyStr)
    (ck : List Int) (fuel : Nat) :
    Rdt30.rdt_3_0_send_step p tlast ⟨q, buf, inc, snt, now :: now2 :: ck⟩ =
      (now2, .next ⟨q, [], inc, snt ++ [p.get_byte_S], ck⟩) ∧
    Rdt30.rdt_3_0_send_loop (fuel + 1) p tlast ⟨q, buf, inc, snt, now :: now2 :: ck⟩ =
      Rdt30.rdt_3_0_send_loop fuel p now2 ⟨q, [], inc, snt ++ [p.get_byte_S], ck⟩ := by
  have hstep := rdt_3_0_send_step_timeout p tlast now now2 h q buf inc snt ck
  exact ⟨hstep, rdt_3_0_send_loop_next hstep fuel⟩

/-- Witness for C5: timer last reset at 0, clock now reads 5 (past the
1-unit timeout), the retransmission is stamped at 6. -/
theorem C5_timeout_clears_buffer_and_retransmits_witness :
    ((0 : Int) + 1 < 5) ∧
    Rdt30.rdt_3_0_send_step ⟨1, strL "m"⟩ 0 ⟨1, strL "junk", [], [], [5, 6]⟩ =
      (6, .next ⟨1, [], [], [] ++ [Packet.get_byte_S ⟨1, strL "m"⟩], []⟩) ∧
    Rdt30.rdt_3_0_send_loop (3 + 1) ⟨1, strL "m"⟩ 0 ⟨1, strL "junk", [], [], [5, 6]⟩ =
      Rdt30.rdt_3_0_send_loop 3 ⟨1, strL "m"⟩ 6 ⟨1, [], [], [] ++ [Packet.get_byte_S ⟨1, strL "m"⟩], []⟩ :=
  ⟨by decide,
   C5_timeout_clears_buffer_and_retransmits ⟨1, strL "m"⟩ 0 5 6 (by decide) 1 (strL "junk")
     [] [] [] 3⟩

/-- C6 counterexample: a receive buffer whose first 10 bytes are
non-numeric makes `int()` raise `ValueError` in both RDT.py receive
operations, and a buffer whose length field parses to the negative value
-1 reaches the decoder and raises `RuntimeError` at level 1 — neither is
treated as the "not enough data" outcome the claim requires. -/
theorem C6_counterexample :
    RDTpy.rdt_1_0_receive 1 ⟨1, strL "XXXXXXXXXX", [], [], []⟩ = some (.error .valueError) ∧
    RDTpy.rdt_2_1_receive 1 ⟨1, strL "XXXXXXXXXX", [], [], []⟩ = some (.error .valueError) ∧
    RDTpy.rdt_1_0_receive 1 ⟨1, strL "-000000001", [], [], []⟩ = some (.error .runtimeError) :=
  ⟨by rfl, by rfl, by rfl⟩

/-- C6 (amended): buffered input shorter than the 10-byte length field
returns the incomplete ("nothing yet") outcome without raising, as does a
numeric length field exceeding the number of buffered bytes; but a
non-numeric 10-character length field raises `ValueError` from `int()`
instead of being treated as "not enough data". -/
theorem C6_amended_short_input_handling :
    (∀ (q : Int) (buf : PyStr) (snt : List PyStr) (ck : List Int) (fuel : Nat),
      buf.length < 10 →
        RDTpy.rdt_1_0_receive (fuel + 1) ⟨q, buf, [], snt, ck⟩ =
          some (.ok (none, ⟨q, buf, [], snt, ck⟩)) ∧
        RDTpy.rdt_2_1_receive (fuel + 1) ⟨q, buf, [], snt, ck⟩ =
          some (.ok (none, ⟨q, buf, [], snt, ck⟩))) ∧
    (∀ (q : Int) (buf : PyStr) (snt : List PyStr) (ck : List Int) (fuel : Nat) (L : Int),
      ¬ buf.length < 10 → pyInt (buf.take 10) = .ok L → (buf.length : Int) < L →
        RDTpy.rdt_1_0_receive (fuel + 1) ⟨q, buf, [], snt, ck⟩ =
          some (.ok (none, ⟨q, buf, [], snt, ck⟩)) ∧
        RDTpy.rdt_2_1_receive (fuel + 1) ⟨q, buf, [], snt, ck⟩ =
          some (.ok (none, ⟨q, buf, [], snt, ck⟩))) ∧
    (∀ (q : Int) (buf : PyStr) (snt : List PyStr) (ck : List Int) (fuel : Nat) (e : PyErr),
      ¬ buf.length < 10 → pyInt (buf.take 10) = .error e →
        RDTpy.rdt_1_0_receive (fuel + 1) ⟨q, buf, [], snt, ck⟩ = some (.error e) ∧
        RDTpy.rdt_2_1_receive (fuel + 1) ⟨q, buf, [], snt, ck⟩ = some (.error e)) := by
  refine ⟨fun q buf snt ck fuel h => ⟨?_, ?_⟩, fun q buf snt ck fuel L h hp hL => ⟨?_, ?_⟩,
    fun q buf snt ck fuel e h hp => ⟨?_, ?_⟩⟩
  · rw [rdt_1_0_receive_nil_incoming, rdt_1_0_loop_short fuel none _ h]
  · rw [rdt_2_1_receive_nil_incoming, rdt_2_1_loop_short fuel none _ h]
  · rw [rdt_1_0_receive_nil_incoming, rdt_1_0_loop_incomplete fuel none _ h hp hL]
  · rw [rdt_2_1_receive_nil_incoming, rdt_2_1_loop_incomplete fuel none _ h hp hL]
  · rw [rdt_1_0_receive_nil_incoming, rdt_1_0_loop_parse_error fuel none _ h hp]
  · rw [rdt_2_1_receive_nil_incoming, rdt_2_1_loop_parse_error fuel none _ h hp]

/-- Witness for the amended C6: a 3-byte buffer is incomplete; a frame
announcing 100 bytes with only 20 buffered is incomplete; a non-numeric
length field raises `ValueError`. -/
theorem C6_amended_short_input_handling_witness :
    ((strL "abc").length < 10 ∧
      (¬ (strL "00000001000000000001").length < 10 ∧
        pyInt ((strL "00000001000000000001").take 10) = .ok 100 ∧
        ((strL "00000001000000000001").length : Int) < 100) ∧
      (¬ (strL "XXXXXXXXXX").length < 10 ∧
        pyInt ((strL "XXXXXXXXXX").take 10) = .error .valueError)) ∧
    (RDTpy.rdt_1_0_receive (0 + 1) ⟨1, strL "abc", [], [], []⟩ =
        some (.ok (none, ⟨1, strL "abc", [], [], []⟩)) ∧
      RDTpy.rdt_2_1_receive (0 + 1) ⟨1, strL "abc", [], [], []⟩ =
        some (.ok (none, ⟨1, strL "abc", [], [], []⟩))) ∧
    (RDTpy.rdt_1_0_receive (0 + 1) ⟨1, strL "00000001000000000001", [], [], []⟩ =
        some (.ok (none, ⟨1, strL "00000001000000000001", [], [], []⟩)) ∧
      RDTpy.rdt_2_1_receive (0 + 1) ⟨1, strL "00000001000000000001", [], [], []⟩ =
        some (.ok (none, ⟨1, strL "00000001000000000001", [], [], []⟩))) ∧
    (RDTpy.rdt_1_0_receive (0 + 1) ⟨1, strL "XXXXXXXXXX", [], [], []⟩ =
        some (.error .valueError) ∧
      RDTpy.rdt_2_1_receive (0 + 1) ⟨1, strL "XXXXXXXXXX", [], [], []⟩ =
        some (.error .valueError)) :=
  ⟨⟨by decide, ⟨by decide, by rfl, by decide⟩, ⟨by decide, by rfl⟩⟩,
   C6_amended_short_input_handling.1 1 (strL "abc") [] [] 0 (by decide),
   C6_amended_short_input_handling.2.1 1 (strL "00000001000000000001") [] [] 0 100 (by decide)
     (by rfl) (by decide),
   C6_amended_short_input_handling.2.2 1 (strL "XXXXXXXXXX") [] [] 0 .valueError (by decide)
     (by rfl)⟩

set_option maxRecDepth 10000 in
/-- C7 counterexample: a complete 52-byte frame whose checksum field is 32
zero characters fails the checksum check, and RDT.py's level-1 receive
(which calls `Packet.from_byte_S` with no corruption guard) propagates the
resulting `RuntimeError` to the caller instead of recovering locally. -/
theorem C7_counterexample :
    Packet.corrupt (strL "0000000052" ++ strL "0000000001" ++ List.replicate 32 '0') = true ∧
    RDTpy.rdt_1_0_receive 1
        ⟨1, strL "0000000052" ++ strL "0000000001" ++ List.replicate 32 '0', [], [], []⟩ =
      some (.error .runtimeError) :=
  ⟨by rfl, by rfl⟩

/-- C7 (amended): a complete buffered frame that fails the checksum check
is recovered locally on the level-2/level-3 paths — the receive path emits
a NAK tagged with the current sequence number and returns nothing, and
both send loops (`rdt_2_1_send` and `rdt_3_0_send`) discard the frame and
retransmit the data frame — and no exception reaches the caller there; the
level-1 receive path, which performs no corruption check before decoding,
instead propagates the decoder's `RuntimeError` to the caller. -/
theorem C7_amended_corrupt_frame_recovery :
    (∀ (f : PyStr) (q : Int), pyInt (f.take 10) = .ok (f.length : Int) → 10 ≤ f.length →
      Packet.corrupt f = true → ∀ r : PyStr, (f ++ r).take 10 = f.take 10 → r.length < 10 →
      ∀ (snt : List PyStr) (ck : List Int) (fuel : Nat),
        RDTpy.rdt_2_1_receive (fuel + 2) ⟨q, f ++ r, [], snt, ck⟩ =
          some (.ok (none, ⟨q, r, [], snt ++ [Packet.get_byte_S ⟨q, strL "NAK"⟩], ck⟩))) ∧
    (∀ (f : PyStr) (q : Int), pyInt (f.take 10) = .ok (f.length : Int) → 10 ≤ f.length →
      Packet.corrupt f = true → ∀ r : PyStr, (f ++ r).take 10 = f.take 10 →
      ∀ (snt : List PyStr) (ck : List Int),
        Rdt30.rdt_3_0_receive ⟨q, f ++ r, [], snt, ck⟩ =
          .ok (none, ⟨q, r, [], snt ++ [Packet.get_byte_S ⟨q, strL "NAK"⟩], ck⟩)) ∧
    (∀ (f : PyStr) (p : Packet) (q : Int), pyInt (f.take 10) = .ok (f.length : Int) →
      10 ≤ f.length → Packet.corrupt f = true → ∀ r : PyStr, (f ++ r).take 10 = f.take 10 →
      ∀ (snt : List PyStr) (ck : List Int),
        Rdt30.rdt_2_1_send_step p ⟨q, f ++ r, [], snt, ck⟩ =
          .next ⟨q, r, [], snt ++ [p.get_byte_S], ck⟩) ∧
    (∀ (f : PyStr) (p : Packet) (q : Int), pyInt (f.take 10) = .ok (f.length : Int) →
      10 ≤ f.length → Packet.corrupt f = true → ∀ r : PyStr, (f ++ r).take 10 = f.take 10 →
      ∀ (snt : List PyStr) (ck : List Int),
        Rdt30.rdt_3_0_send_body p ⟨q, f ++ r, [], snt, ck⟩ =
          .next ⟨q, r, [], snt ++ [p.get_byte_S], ck⟩) ∧
    (∀ (f : PyStr) (q : Int), pyInt (f.take 10) = .ok (f.length : Int) → 10 ≤ f.length →
      Packet.corrupt f = true → ∀ r : PyStr, (f ++ r).take 10 = f.take 10 →
      ∀ (snt : List PyStr) (ck : List Int) (fuel : Nat),
        RDTpy.rdt_1_0_receive (fuel + 1) ⟨q, f ++ r, [], snt, ck⟩ =
          some (.error .runtimeError)) := by
  refine ⟨fun f q hparse hflen hcor r hr hrshort snt ck fuel => ?_,
    fun f q hparse hflen hcor r hr snt ck => rdt_3_0_receive_corrupt q hparse hflen hcor r hr snt ck,
    fun f p q hparse hflen hcor r hr snt ck =>
      rdt_2_1_send_step_corrupt p q hparse hflen hcor r hr snt ck,
    fun f p q hparse hflen hcor r hr snt ck =>
      rdt_3_0_send_body_corrupt p q hparse hflen hcor r hr snt ck,
    fun f q hparse hflen hcor r hr snt ck fuel => ?_⟩
  · rw [rdt_2_1_receive_nil_incoming,
      rdt_2_1_loop_corrupt_step (fuel + 1) none q hparse hflen hcor r hr snt ck,
      rdt_2_1_loop_short fuel none _ hrshort]
  · rw [rdt_1_0_receive_nil_incoming,
      rdt_1_0_loop_decode_error fuel none q hparse hflen (from_byte_corrupt hcor) r hr snt ck]

set_option maxRecDepth 10000 in
/-- Witness for the amended C7 at the all-zero-checksum 52-byte frame. -/
theorem C7_amended_corrupt_frame_recovery_witness :
    (pyInt ((strL "0000000052" ++ strL "0000000001" ++ List.replicate 32 '0').take 10) =
        .ok ((strL "0000000052" ++ strL "0000000001" ++ List.replicate 32 '0').length : Int) ∧
      10 ≤ (strL "0000000052" ++ strL "0000000001" ++ List.replicate 32 '0').length ∧
      Packet.corrupt (strL "0000000052" ++ strL "0000000001" ++ List.replicate 32 '0') = true ∧
      ((strL "0000000052" ++ strL "0000000001" ++ List.replicate 32 '0') ++ []).take 10 =
        (strL "0000000052" ++ strL "0000000001" ++ List.replicate 32 '0').take 10 ∧
      ([] : PyStr).length < 10) ∧
    RDTpy.rdt_2_1_receive (0 + 2)
        ⟨1, (strL "0000000052" ++ strL "0000000001" ++ List.replicate 32 '0') ++ [], [], [], []⟩ =
      some (.ok (none, ⟨1, [], [], [] ++ [Packet.get_byte_S ⟨1, strL "NAK"⟩], []⟩)) ∧
    Rdt30.rdt_3_0_receive
        ⟨1, (strL "0000000052" ++ strL "0000000001" ++ List.replicate 32 '0') ++ [], [], [], []⟩ =
      .ok (none, ⟨1, [], [], [] ++ [Packet.get_byte_S ⟨1, strL "NAK"⟩], []⟩) ∧
    Rdt30.rdt_2_1_send_step ⟨1, strL "x"⟩
        ⟨1, (strL "0000000052" ++ strL "0000000001" ++ List.replicate 32 '0') ++ [], [], [], []⟩ =
      .next ⟨1, [], [], [] ++ [Packet.get_byte_S ⟨1, strL "x"⟩], []⟩ ∧
    Rdt30.rdt_3_0_send_body ⟨1, strL "x"⟩
        ⟨1, (strL "0000000052" ++ strL "0000000001" ++ List.replicate 32 '0') ++ [], [], [], []⟩ =
      .next ⟨1, [], [], [] ++ [Packet.get_byte_S ⟨1, strL "x"⟩], []⟩ ∧
    RDTpy.rdt_1_0_receive (0 + 1)
        ⟨1, (strL "0000000052" ++ strL "0000000001" ++ List.replicate 32 '0') ++ [], [], [], []⟩ =
      some (.error .runtimeError) :=
  ⟨⟨by rfl, by decide, by rfl, by rfl, by decide⟩,
   C7_amended_corrupt_frame_recovery.1 _ 1 (by rfl) (by decide) (by rfl) [] (by rfl) (by decide)
     [] [] 0,
   C7_amended_corrupt_frame_recovery.2.1 _ 1 (by rfl) (by decide) (by rfl) [] (by rfl) [] [],
   C7_amended_corrupt_frame_recovery.2.2.1 _ ⟨1, strL "x"⟩ 1 (by rfl) (by decide) (by rfl) []
     (by rfl) [] [],
   C7_amended_corrupt_frame_recovery.2.2.2.1 _ ⟨1, strL "x"⟩ 1 (by rfl) (by decide) (by rfl) []
     (by rfl) [] [],
   C7_amended_corrupt_frame_recovery.2.2.2.2 _ 1 (by rfl) (by decide) (by rfl) [] (by rfl) [] [] 0⟩

/-- C8: `Packet.corrupt` reports corrupt for every input string whose
embedded 32-character checksum field (bytes 20–51) differs from the MD5
digest recomputed over the claimed length field (bytes 0–9), sequence
field (bytes 10–19) and payload (bytes 52 onward); every input shorter
than the 52-byte header — the empty string included — satisfies that
mismatch, because the embedded field is then shorter than the 32-character
digest.  (`corrupt` is a total function of the input string, so no input
makes it raise.) -/
theorem C8_corrupt_detects_mismatch :
    (∀ s : PyStr,
      (s.take 52).drop 20 ≠ md5hexS (s.take 10 ++ ((s.take 20).drop 10 ++ s.drop 52)) →
        Packet.corrupt s = true) ∧
    (∀ s : PyStr, s.length < 52 →
      (s.take 52).drop 20 ≠ md5hexS (s.take 10 ++ ((s.take 20).drop 10 ++ s.drop 52))) := by
  constructor
  · intro s h
    unfold Packet.corrupt
    simp only [Packet.length_S_length, Packet.seq_num_S_length, Packet.checksum_length,
      pySlice_zero_natCast, pySlice_natCast, pySliceFrom_natCast]
    norm_num
    exact h
  · intro s hlen heq
    have h1 : ((s.take 52).drop 20).length = 32 := by rw [heq, md5hexS_length]
    rw [List.length_drop, List.length_take] at h1
    omega

set_option maxRecDepth 10000 in
/-- Witness for C8 at the 5-byte input `'hello'`, which is shorter than
the 52-byte header and is reported corrupt. -/
theorem C8_corrupt_detects_mismatch_witness :
    ((strL "hello").take 52).drop 20 ≠
      md5hexS ((strL "hello").take 10 ++
        (((strL "hello").take 20).drop 10 ++ (strL "hello").drop 52)) ∧
    Packet.corrupt (strL "hello") = true :=
  ⟨by decide, C8_corrupt_detects_mismatch.1 (strL "hello") (by decide)⟩

/-- C9: in both rdt_3_0.py receive operations, a non-corrupt frame whose
payload is one of the reserved control strings `'ACK'`/`'NAK'` is treated
as a control frame: the call returns nothing to the application, transmits
no acknowledgment, and leaves the sequence counter unchanged. -/
theorem C9_control_payload_returns_nothing (s' : Nat) (m : PyStr) (hs : s' < 10 ^ 10)
    (hm : 52 + m.length < 10 ^ 10) (q : Int) (hctl : m = strL "ACK" ∨ m = strL "NAK")
    (r : PyStr) (snt : List PyStr) (ck : List Int) :
    Rdt30.rdt_3_0_receive ⟨q, Packet.get_byte_S ⟨(s' : Int), m⟩ ++ r, [], snt, ck⟩ =
      .ok (none, ⟨q, r, [], snt, ck⟩) ∧
    Rdt30.rdt_2_1_receive ⟨q, Packet.get_byte_S ⟨(s' : Int), m⟩ ++ r, [], snt, ck⟩ =
      .ok (none, ⟨q, r, [], snt, ck⟩) := by
  have h := rdt_3_0_receive_control hs hm q hctl r snt ck
  rw [rdt_2_1_receive_eq_rdt_3_0_receive]
  exact ⟨h, h⟩

/-- Witness for C9 at an ACK frame with sequence number 5 arriving at a
receiver whose counter is 1. -/
theorem C9_control_payload_returns_nothing_witness :
    (5 < 10 ^ 10 ∧ 52 + (strL "ACK").length < 10 ^ 10 ∧
      (strL "ACK" = strL "ACK" ∨ strL "ACK" = strL "NAK")) ∧
    Rdt30.rdt_3_0_receive ⟨1, Packet.get_byte_S ⟨((5 : Nat) : Int), strL "ACK"⟩ ++ [], [], [], []⟩ =
      .ok (none, ⟨1, [], [], [], []⟩) ∧
    Rdt30.rdt_2_1_receive ⟨1, Packet.get_byte_S ⟨((5 : Nat) : Int), strL "ACK"⟩ ++ [], [], [], []⟩ =
      .ok (none, ⟨1, [], [], [], []⟩) :=
  ⟨⟨by decide, by decide, Or.inl rfl⟩,
   C9_control_payload_returns_nothing 5 (strL "ACK") (by decide) (by decide) 1 (Or.inl rfl)
     [] [] []⟩

/-- C10: in RDT.py's level-2 receiver a non-corrupt frame with a
non-matching sequence number is acknowledged but its bytes are not removed
from the receive buffer — after the call the buffer still begins with (is
in fact equal to) the same frame — so the next receive call re-extracts
and re-acknowledges the same stale frame again, its sequence counter never
moving. -/
theorem C10_stale_frame_left_in_buffer (s' : Nat) (m : PyStr) (hs : s' < 10 ^ 10)
    (hm : 52 + m.length < 10 ^ 10) (q : Int) (hq : (s' : Int) ≠ q) (r : PyStr)
    (snt : List PyStr) (ck : List Int) :
    (∀ fuel : Nat,
      RDTpy.rdt_2_1_receive (fuel + 1)
          ⟨q, Packet.get_byte_S ⟨(s' : Int), m⟩ ++ r, [], snt, ck⟩ =
        some (.ok (none, ⟨q, Packet.get_byte_S ⟨(s' : Int), m⟩ ++ r, [],
          snt ++ [Packet.get_byte_S ⟨(s' : Int), strL "ACK"⟩], ck⟩))) ∧
    (∀ fuel : Nat,
      RDTpy.rdt_2_1_receive (fuel + 1)
          ⟨q, Packet.get_byte_S ⟨(s' : Int), m⟩ ++ r, [],
            snt ++ [Packet.get_byte_S ⟨(s' : Int), strL "ACK"⟩], ck⟩ =
        some (.ok (none, ⟨q, Packet.get_byte_S ⟨(s' : Int), m⟩ ++ r, [],
          (snt ++ [Packet.get_byte_S ⟨(s' : Int), strL "ACK"⟩]) ++
            [Packet.get_byte_S ⟨(s' : Int), strL "ACK"⟩], ck⟩))) := by
  constructor
  · intro fuel
    rw [rdt_2_1_receive_nil_incoming, rdt_2_1_loop_stale hs hm q hq fuel none r snt ck]
  · intro fuel
    rw [rdt_2_1_receive_nil_incoming, rdt_2_1_loop_stale hs hm q hq fuel none r _ ck]

/-- Witness for C10 with received sequence number 7, expected number 1. -/
theorem C10_stale_frame_left_in_buffer_witness :
    (7 < 10 ^ 10 ∧ 52 + (strL "old").length < 10 ^ 10 ∧ ((7 : Nat) : Int) ≠ 1) ∧
    (∀ fuel : Nat,
      RDTpy.rdt_2_1_receive (fuel + 1)
          ⟨1, Packet.get_byte_S ⟨((7 : Nat) : Int), strL "old"⟩ ++ [], [], [], []⟩ =
        some (.ok (none, ⟨1, Packet.get_byte_S ⟨((7 : Nat) : Int), strL "old"⟩ ++ [], [],
          [] ++ [Packet.get_byte_S ⟨((7 : Nat) : Int), strL "ACK"⟩], []⟩))) ∧
    (∀ fuel : Nat,
      RDTpy.rdt_2_1_receive (fuel + 1)
          ⟨1, Packet.get_byte_S ⟨((7 : Nat) : Int), strL "old"⟩ ++ [], [],
            [] ++ [Packet.get_byte_S ⟨((7 : Nat) : Int), strL "ACK"⟩], []⟩ =
        some (.ok (none, ⟨1, Packet.get_byte_S ⟨((7 : Nat) : Int), strL "old"⟩ ++ [], [],
          ([] ++ [Packet.get_byte_S ⟨((7 : Nat) : Int), strL "ACK"⟩]) ++
            [Packet.get_byte_S ⟨((7 : Nat) : Int), strL "ACK"⟩], []⟩))) :=
  ⟨⟨by decide, by decide, by decide⟩,
   C10_stale_frame_left_in_buffer 7 (strL "old") (by decide) (by decide) 1 (by decide) [] [] []⟩
